import Mathlib

/-!
Verification of the accounts-receivable backend (Sistema_CxC, src/backend.py).

The development is a shallow embedding of the core domain logic:
monetary amounts (Python floats holding currency values) are modelled as
exact rationals (Rat); spreadsheet rows become Lean structures whose
fields follow the column schema HEADERS_FACTURAS / HEADERS_ABONOS of the
source; each HTTP handler body becomes a pure function from the sheet
state and request data to either an error or the updated sheet state.
A handler that returns an HTTP error before performing any write is
modelled as an Except.error, leaving the state untouched, exactly as the
source's early returns do.
-/

set_option allowUnsafeReducibility true

attribute [local semireducible] Rat.add Rat.sub Rat.mul Rat.inv Rat.ofScientific

namespace CxC

/-- Lifecycle state of a document, column 19 (Estado) of the Facturas
sheet.  The source stores the strings "Pendiente", "Abono Parcial",
"Pagado" and "Compensado"; the embedding uses one constructor per
string. -/
inductive Estado where
  | pendiente
  | abonoParcial
  | pagado
  | compensado
deriving DecidableEq, Repr

/-- One row of the Facturas sheet, fields in the order of
HEADERS_FACTURAS (src/backend.py line 732): ID, Consecutivo, Fecha,
ClienteID, ClienteNombre, CedulaCliente, TotalFactura, CORFOGA,
OtrosRebajos, MontoCobrar, FechaVencimiento, Pagado, FechaPago,
TipoProducto, OrdenCompra, Notas, TipoDocumento, DocumentoRelacionado,
Estado, TotalAbonado, SaldoPendiente.  The due date is modelled as an
absolute day number (dates differ by whole days in the source's
datetime arithmetic); none stands for an empty or unparsable cell. -/
structure Factura where
  id : String
  consecutivo : String
  fecha : String
  clienteId : String
  clienteNombre : String
  cedulaCliente : String
  totalFactura : Rat
  corfoga : Rat
  otrosRebajos : Rat
  montoCobrar : Rat
  fechaVencimiento : Option Int
  pagado : Bool
  fechaPago : Option String
  tipoProducto : String
  ordenCompra : String
  notas : String
  tipoDocumento : String
  documentoRelacionado : String
  estado : Estado
  totalAbonado : Rat
  saldoPendiente : Rat
deriving DecidableEq, Repr

/-- One row of the Abonos sheet, fields in the order of HEADERS_ABONOS
(src/backend.py line 737): ID, FacturaID, Consecutivo, Fecha, Monto,
MetodoPago, Referencia, Notas. -/
structure Abono where
  id : String
  facturaId : String
  consecutivo : String
  fecha : String
  monto : Rat
  metodoPago : String
  referencia : String
  notas : String
deriving DecidableEq, Repr

/-- The persistent state the ledger endpoints operate on: the Facturas
worksheet and the Abonos worksheet, each an ordered list of rows. -/
structure SheetState where
  facturas : List Factura
  abonos : List Abono
deriving DecidableEq, Repr

/-- Request body of POST /api/abonos (add_abono, src/backend.py
line 3212): facturaId, monto, fecha, metodoPago, referencia, notas. -/
structure AbonoReq where
  facturaId : String
  monto : Rat
  fecha : String
  metodoPago : String
  referencia : String
  notas : String
deriving DecidableEq, Repr

/-- Error responses of the ledger endpoints.  The 400 responses of
add_abono are validation errors; the 404 responses are not-found
errors.  validationExcedeSaldo carries the available balance
monto_cobrar - total_abonado_actual that the source interpolates into
its error message (src/backend.py line 3242). -/
inductive ApiErr where
  | validationMonto
  | validationExcedeSaldo (saldoActual : Rat)
  | notFoundFactura
  | notFoundAbono
  | notFoundNC
deriving DecidableEq, Repr

/-- Whether an error is one of the 400 ValidationError responses (as
opposed to a 404 not-found response). -/
def ApiErr.isValidation : ApiErr → Bool
  | .validationMonto => true
  | .validationExcedeSaldo _ => true
  | _ => false

/-- Replace the first element satisfying p by its image under g; the
counterpart of locating a row with worksheet.find and rewriting its
cells with update_cell. -/
def updateFirst (p : α → Bool) (g : α → α) : List α → List α
  | [] => []
  | x :: xs => if p x then g x :: xs else x :: updateFirst p g xs

/-- Remove the first element satisfying p; the counterpart of locating
a row with worksheet.find and calling delete_rows on it. -/
def removeFirst (p : α → Bool) : List α → List α
  | [] => []
  | x :: xs => if p x then xs else x :: removeFirst p xs

/-- The floating-point tolerance the source uses for equality to zero
of balances (the literal 0.01 at src/backend.py lines 3239 and 3266). -/
def tolerancia : Rat := mkRat 1 100

/-- The cell writes add_abono performs on the invoice row
(src/backend.py lines 3262-3271): TotalAbonado and SaldoPendiente
always; when the new balance is at most 0.01 also Pagado := TRUE,
FechaPago := today and Estado := "Pagado", otherwise
Estado := "Abono Parcial". -/
def abonoUpdateRow (nuevoTotalAbonado nuevoSaldo : Rat) (hoy : String)
    (g : Factura) : Factura :=
  let g' := { g with totalAbonado := nuevoTotalAbonado,
                     saldoPendiente := max 0 nuevoSaldo }
  if nuevoSaldo ≤ tolerancia then
    { g' with pagado := true, fechaPago := some hoy, estado := .pagado }
  else
    { g' with estado := .abonoParcial }

/-- The cell writes delete_abono performs on the invoice row
(src/backend.py lines 3317-3326): TotalAbonado, SaldoPendiente
(not clamped), Estado and Pagado := FALSE. -/
def deleteUpdateRow (nuevoTotalAbonado nuevoSaldo : Rat)
    (g : Factura) : Factura :=
  { g with totalAbonado := nuevoTotalAbonado,
           saldoPendiente := nuevoSaldo,
           estado := if nuevoTotalAbonado > 0 then .abonoParcial
                     else .pendiente,
           pagado := false }

/-- add_abono (src/backend.py lines 3212-3282), POST /api/abonos:
validates that a factura id and a positive amount were supplied, looks
the invoice up, rejects the payment when the new balance would fall
below -0.01, and otherwise appends one Abono row and rewrites the
invoice's TotalAbonado, SaldoPendiente, and - depending on whether the
new balance is at most 0.01 - Pagado, FechaPago and Estado cells.
abonoId stands for the timestamp id the source generates; hoy for
today's date string. -/
def add_abono (st : SheetState) (req : AbonoReq) (abonoId hoy : String) :
    Except ApiErr SheetState :=
  if req.facturaId = "" ∨ req.monto ≤ 0 then
    .error .validationMonto
  else
    match st.facturas.find? (fun f => f.id == req.facturaId) with
    | none => .error .notFoundFactura
    | some f =>
      let nuevoTotalAbonado := f.totalAbonado + req.monto
      let nuevoSaldo := f.montoCobrar - nuevoTotalAbonado
      if nuevoSaldo < -tolerancia then
        .error (.validationExcedeSaldo (f.montoCobrar - f.totalAbonado))
      else
        let ab : Abono :=
          { id := abonoId, facturaId := req.facturaId,
            consecutivo := f.consecutivo, fecha := req.fecha,
            monto := req.monto, metodoPago := req.metodoPago,
            referencia := req.referencia, notas := req.notas }
        let facturas' := updateFirst (fun g => g.id == req.facturaId)
          (abonoUpdateRow nuevoTotalAbonado nuevoSaldo hoy) st.facturas
        .ok { facturas := facturas', abonos := st.abonos ++ [ab] }

/-- delete_abono (src/backend.py lines 3288-3330), DELETE
/api/abonos/id: finds the abono row (404 when absent), deletes it, and
when the owning invoice is found rewrites its TotalAbonado (floored at
0), SaldoPendiente (not clamped), Estado ("Abono Parcial" when the new
total is positive, else "Pendiente") and Pagado := FALSE cells. -/
def delete_abono (st : SheetState) (abonoId : String) :
    Except ApiErr SheetState :=
  match st.abonos.find? (fun a => a.id == abonoId) with
  | none => .error .notFoundAbono
  | some ab =>
    let abonos' := removeFirst (fun a => a.id == abonoId) st.abonos
    let facturas' :=
      match st.facturas.find? (fun f => f.id == ab.facturaId) with
      | none => st.facturas
      | some f =>
        let nuevoTotalAbonado := max 0 (f.totalAbonado - ab.monto)
        let nuevoSaldo := f.montoCobrar - nuevoTotalAbonado
        updateFirst (fun g => g.id == ab.facturaId)
          (deleteUpdateRow nuevoTotalAbonado nuevoSaldo) st.facturas
    .ok { facturas := facturas', abonos := abonos' }

/-- One call against the two ledger endpoints: registering a partial
payment or reversing one. -/
inductive Op where
  | abonar (req : AbonoReq) (abonoId hoy : String)
  | eliminarAbono (abonoId : String)
deriving DecidableEq, Repr

/-- Effect of one endpoint call on the sheets: an error response leaves
the sheets untouched (the source returns before any write). -/
def applyOp (st : SheetState) : Op → SheetState
  | .abonar req abonoId hoy =>
    match add_abono st req abonoId hoy with
    | .ok st' => st'
    | .error _ => st
  | .eliminarAbono abonoId =>
    match delete_abono st abonoId with
    | .ok st' => st'
    | .error _ => st

/-- Effect of a finite sequence of endpoint calls, first call first. -/
def runOps (st : SheetState) (ops : List Op) : SheetState :=
  ops.foldl applyOp st

/-- Consistency of one invoice row, as the spec's balance invariant
reads it: the accumulated total is nonnegative, the arithmetic balance
monto_cobrar - total_abonado never falls below -0.01, and the stored
SaldoPendiente cell agrees with max 0 (monto_cobrar - total_abonado)
within the 0.01 tolerance. -/
def FacturaConsistente (f : Factura) : Prop :=
  0 ≤ f.totalAbonado ∧
  -tolerancia ≤ f.montoCobrar - f.totalAbonado ∧
  |f.saldoPendiente - max 0 (f.montoCobrar - f.totalAbonado)| ≤ tolerancia

instance (f : Factura) : Decidable (FacturaConsistente f) := by
  unfold FacturaConsistente
  infer_instance

/-- Consistency of the whole sheet state: every invoice row is
consistent and every stored abono has a positive amount (add_abono only
ever appends positive amounts). -/
def Consistente (st : SheetState) : Prop :=
  (∀ f ∈ st.facturas, FacturaConsistente f) ∧ ∀ ab ∈ st.abonos, 0 < ab.monto

/-- Sum of the amounts (Monto column) of a list of abono rows. -/
def sumMontos (l : List Abono) : Rat := (l.map (fun ab => ab.monto)).sum

/-- All stored abono rows belonging to the invoice with the given id,
as GET /api/facturas/id/abonos filters them
(src/backend.py lines 3332-3360). -/
def abonosDe (st : SheetState) (facturaId : String) : List Abono :=
  st.abonos.filter (fun ab => ab.facturaId == facturaId)

/-- Bookkeeping consistency of the sheet state: invoice ids are unique,
stored abono amounts are nonnegative, and every invoice's TotalAbonado
cell equals the sum of its abono rows. -/
def SumasConsistentes (st : SheetState) : Prop :=
  (st.facturas.map (fun f => f.id)).Nodup ∧
  (∀ ab ∈ st.abonos, 0 ≤ ab.monto) ∧
  ∀ f ∈ st.facturas, sumMontos (abonosDe st f.id) = f.totalAbonado

/-- A consistent sample invoice: net collectible 100, nothing paid. -/
def fEj : Factura :=
  { id := "F1", consecutivo := "10000101", fecha := "2026-01-01",
    clienteId := "C1", clienteNombre := "ACME", cedulaCliente := "101110111",
    totalFactura := 100, corfoga := 0, otrosRebajos := 0,
    montoCobrar := 100, fechaVencimiento := some 20500, pagado := false,
    fechaPago := none, tipoProducto := "", ordenCompra := "",
    notas := "", tipoDocumento := "FAC", documentoRelacionado := "",
    estado := .pendiente, totalAbonado := 0, saldoPendiente := 100 }

/-- Sample sheet state holding the sample invoice and no abonos. -/
def stEj : SheetState := { facturas := [fEj], abonos := [] }

/-- A payment of 30 followed by its reversal. -/
def opsEj : List Op :=
  [.abonar { facturaId := "F1", monto := 30, fecha := "2026-02-01",
             metodoPago := "Transferencia", referencia := "",
             notas := "" } "A1" "2026-02-01",
   .eliminarAbono "A1"]

/-- Sample invoice with net collectible 100 and 90 already paid, the
spec's overpayment example. -/
def fEj90 : Factura :=
  { fEj with totalAbonado := 90, saldoPendiente := 10,
             estado := .abonoParcial }

/-- Sheet state holding the 90-percent-paid sample invoice. -/
def stEj90 : SheetState := { facturas := [fEj90], abonos := [] }

/-- The spec's overpayment request: 15 against a balance of 10. -/
def reqEj15 : AbonoReq :=
  { facturaId := "F1", monto := 15, fecha := "2026-02-01",
    metodoPago := "Transferencia", referencia := "", notas := "" }

/-- Sample invoice with remaining balance exactly 50, the spec's
exact-settlement example. -/
def fEj50 : Factura :=
  { fEj with montoCobrar := 50, totalFactura := 50,
             saldoPendiente := 50 }

/-- Sheet state holding the remaining-balance-50 sample invoice. -/
def stEj50 : SheetState := { facturas := [fEj50], abonos := [] }

/-- The spec's exact-settlement request: a payment of exactly 50. -/
def reqEj50 : AbonoReq :=
  { facturaId := "F1", monto := 50, fecha := "2026-02-01",
    metodoPago := "Transferencia", referencia := "", notas := "" }

/-- The round-trip sample request: a payment of 30. -/
def reqEj30 : AbonoReq :=
  { facturaId := "F1", monto := 30, fecha := "2026-02-01",
    metodoPago := "Transferencia", referencia := "", notas := "" }

/-- Note concatenation used throughout the source: an existing
non-empty Notas cell gets " | " plus the new annotation appended,
an empty cell is replaced by the annotation alone. -/
def appendNota (notas nueva : String) : String :=
  if notas = "" then nueva else notas ++ " | " ++ nueva

/-- The cell writes compensar_documentos performs on each of the two
document rows (src/backend.py lines 1327-1341): Pagado := TRUE,
FechaPago := today, DocumentoRelacionado := the counterpart id,
Estado := "Compensado", and the note appended to Notas. -/
def compensarRow (relId nota hoy : String) (g : Factura) : Factura :=
  { g with pagado := true, fechaPago := some hoy,
           documentoRelacionado := relId, estado := .compensado,
           notas := appendNota g.notas nota }

/-- compensar_documentos (src/backend.py lines 1293-1345), POST
/api/facturas/compensar: resolves the credit note and the invoice
(404 when either is missing), takes the requested amount or - when it
is 0 - the minimum of the absolute MontoCobrar values, stamps both
rows as compensated (sequentially: first the credit note, then the
invoice), and returns the compensated amount.  TotalAbonado and
SaldoPendiente are never touched. -/
def compensar_documentos (st : SheetState) (ncId facturaId : String)
    (montoCompensar : Rat) (hoy : String) :
    Except ApiErr (SheetState × Rat) :=
  match st.facturas.find? (fun f => f.id == ncId) with
  | none => .error .notFoundNC
  | some nc =>
    match st.facturas.find? (fun f => f.id == facturaId) with
    | none => .error .notFoundFactura
    | some fac =>
      let montoNC := nc.montoCobrar
      let montoFac := fac.montoCobrar
      let monto := if montoCompensar = 0 then min |montoNC| |montoFac|
                   else montoCompensar
      let facturas₁ := updateFirst (fun g => g.id == ncId)
        (compensarRow facturaId ("Compensado con FAC " ++ facturaId)
          hoy) st.facturas
      let facturas₂ := updateFirst (fun g => g.id == facturaId)
        (compensarRow ncId ("Compensado con NC " ++ ncId) hoy) facturas₁
      .ok ({ facturas := facturas₂, abonos := st.abonos }, monto)

/-- detectar_tipo_documento (src/backend.py lines 739-748): codes of
length at least 8 whose characters at positions 6-7 are "03" are
credit notes, everything else is an invoice. -/
def detectar_tipo_documento (consecutivo : String) : String :=
  if consecutivo.length ≥ 8 ∧
      (consecutivo.toList.drop 6).take 2 = ['0', '3'] then "NC"
  else "FAC"

/-- add_factura (src/backend.py lines 1062-1103), POST /api/facturas:
builds the new invoice row.  MontoCobrar is computed here, once, as
total - corfoga - otros.  The appended row has no TotalAbonado or
SaldoPendiente cells; the empty cells read back as 0 through
parse_number, which the embedding represents by storing 0. -/
def add_factura (facturaId consecutivo fecha clienteId clienteNombre
    cedulaCliente : String) (total corfoga otros : Rat)
    (fechaVencimiento : Option Int) (tipoProducto ordenCompra notas
    tipoDocumento documentoRelacionado : String) : Factura :=
  { id := facturaId, consecutivo := consecutivo, fecha := fecha,
    clienteId := clienteId, clienteNombre := clienteNombre,
    cedulaCliente := cedulaCliente, totalFactura := total,
    corfoga := corfoga, otrosRebajos := otros,
    montoCobrar := total - corfoga - otros,
    fechaVencimiento := fechaVencimiento, pagado := false,
    fechaPago := none, tipoProducto := tipoProducto,
    ordenCompra := ordenCompra, notas := notas,
    tipoDocumento := if tipoDocumento ≠ "" then tipoDocumento
                     else detectar_tipo_documento consecutivo,
    documentoRelacionado := documentoRelacionado, estado := .pendiente,
    totalAbonado := 0, saldoPendiente := 0 }

/-- The payment annotation registrar_pago appends to the Notas cell
(src/backend.py line 1286). -/
def appendNotaPago (actuales nueva : String) : String :=
  if actuales = "" then "Pago: " ++ nueva
  else actuales ++ " | Pago: " ++ nueva

/-- The cell writes registrar_pago performs on the invoice row
(src/backend.py lines 1267-1286): with a truthy montoParcial (present
and nonzero) it rewrites MontoCobrar to the current value minus the
partial amount and leaves the paid flag alone; otherwise it marks the
invoice paid.  Both paths stamp FechaPago and append a payment note
when one was supplied. -/
def pagoUpdateRow (montoParcial : Option Rat)
    (fechaPago notas : String) (g : Factura) : Factura :=
  let g1 := match montoParcial with
    | some v =>
      if v ≠ 0 then { g with montoCobrar := g.montoCobrar - v }
      else { g with pagado := true, estado := .pagado }
    | none => { g with pagado := true, estado := .pagado }
  let g2 := { g1 with fechaPago := some fechaPago }
  if notas ≠ "" then { g2 with notas := appendNotaPago g2.notas notas }
  else g2

/-- registrar_pago (src/backend.py lines 1256-1290), POST
/api/facturas/id/pago: the legacy payment endpoint.  When the invoice
is not found it still reports success and changes nothing; otherwise
it applies pagoUpdateRow to the row.  The fechaPago parameter stands
for the request's date or, when absent, today. -/
def registrar_pago (st : SheetState) (facturaId : String)
    (montoParcial : Option Rat) (fechaPago notas : String) :
    SheetState :=
  match st.facturas.find? (fun g => g.id == facturaId) with
  | none => st
  | some _ =>
    let facturas' := updateFirst (fun g => g.id == facturaId)
      (pagoUpdateRow montoParcial fechaPago notas) st.facturas
    { st with facturas := facturas' }

/-- Sample credit note with MontoCobrar 200, the spec's compensation
example. -/
def fEjNC : Factura :=
  { fEj with id := "NC1", consecutivo := "10000103",
             totalFactura := 200, montoCobrar := 200,
             tipoDocumento := "NC", saldoPendiente := 200 }

/-- Sample invoice with MontoCobrar 150, the spec's compensation
example. -/
def fEj150 : Factura :=
  { fEj with id := "F2", totalFactura := 150, montoCobrar := 150,
             saldoPendiente := 150 }

/-- Sheet state holding the compensation example pair. -/
def stEjComp : SheetState := { facturas := [fEjNC, fEj150], abonos := [] }

/-- The four aging windows of get_antiguedad_cartera
(src/backend.py lines 3383-3395): "corriente" is the 0-30 bucket. -/
inductive Bucket where
  | corriente
  | dias31_60
  | dias61_90
  | dias90mas
deriving DecidableEq, Repr

/-- Days past due (src/backend.py lines 3428-3438): the difference in
whole days between the reference date and the due date, 0 when the due
date cell is empty or unparsable.  Dates are modelled as absolute day
numbers, so the datetime subtraction (hoy - fecha_venc).days becomes
integer subtraction. -/
def dias_vencido (hoy : Int) (fechaVencimiento : Option Int) : Int :=
  match fechaVencimiento with
  | none => 0
  | some fv => hoy - fv

/-- Bucket assignment (src/backend.py lines 3456-3468): inclusive
upper bounds 30, 60 and 90; everything beyond 90 in the last bucket.
The raw (possibly negative) day count is used here; only the displayed
diasVencido field is clamped with max(0, dias). -/
def clasificarBucket (d : Int) : Bucket :=
  if d ≤ 30 then .corriente
  else if d ≤ 60 then .dias31_60
  else if d ≤ 90 then .dias61_90
  else .dias90mas

/-- The filter of get_antiguedad_cartera (src/backend.py lines
3412-3426): skip paid, settled-state, compensated and credit-note
documents, and documents with no positive balance (recomputed as
MontoCobrar - TotalAbonado). -/
def incluidaEnCartera (f : Factura) : Bool :=
  !(f.pagado || f.estado == .pagado || f.estado == .compensado ||
    f.tipoDocumento == "NC") &&
  decide (0 < f.montoCobrar - f.totalAbonado)

/-- Classification of a single row by get_antiguedad_cartera: none
when the row is filtered out, otherwise its aging bucket. -/
def clasificarFactura (hoy : Int) (f : Factura) : Option Bucket :=
  if incluidaEnCartera f then
    some (clasificarBucket (dias_vencido hoy f.fechaVencimiento))
  else none

/-- verificar_ultimos_digitos (src/backend.py lines 2724-2728):
strips every non-digit character from the identification and compares
the Python slice id_limpia[-4:] - the last min(4, length) characters -
with the supplied code.  Strings are modelled as character lists;
List.drop (length - 4) with truncated subtraction is exactly the
Python [-4:] slice. -/
def verificar_ultimos_digitos (identificacion codigo : List Char) :
    Bool :=
  let idLimpia := identificacion.filter (fun c => c.isDigit)
  (idLimpia.drop (idLimpia.length - 4)) == codigo

/-- A value as parse_number receives it: Python None, a numeric value
(int or float, both passed through float()), or a string.  Strings are
modelled as character lists. -/
inductive PyVal where
  | none
  | num (q : Rat)
  | str (s : List Char)
deriving DecidableEq, Repr

/-- The characters parse_number keeps when cleaning a string
(src/backend.py lines 662-664): digits, period, comma and minus. -/
def keepChar (c : Char) : Bool :=
  c.isDigit || c == '.' || c == ',' || c == '-'

/-- Python str.rfind for a character known to occur in the list: the
index of its last occurrence. -/
def lastIdx (c : Char) (s : List Char) : Nat :=
  s.length - 1 - s.reverse.indexOf c

/-- Decimal value of a list of digit characters, most significant
first - the value float() assigns to a plain digit string. -/
def digitsVal (l : List Char) : Nat :=
  l.foldl (fun a c => 10 * a + (c.toNat - 48)) 0

/-- Python float() on the cleaned strings parse_number produces, whose
characters are only digits, periods and minus signs: an optional
leading minus, then digits with at most one period and at least one
digit.  The head of rest, when rest is nonempty, is necessarily the
first period of t, because takeWhile stopped there.  The value
int.frac is digitsVal(int ++ frac) / 10^(length of frac). -/
def pyFloatBody (t : List Char) : Option Rat :=
  let ip := t.takeWhile (fun c => c ≠ '.')
  let rest := t.drop ip.length
  match rest with
  | [] =>
    if ip ≠ [] ∧ ip.all (fun c => c.isDigit) then
      some (mkRat (digitsVal ip) 1)
    else Option.none
  | _ :: fp =>
    if ip.all (fun c => c.isDigit) ∧ fp.all (fun c => c.isDigit) ∧
        ip ++ fp ≠ [] then
      some (mkRat (digitsVal (ip ++ fp)) (10 ^ fp.length))
    else Option.none

/-- Python float() including the optional leading minus sign; fails
(None, modelling the ValueError the source catches into 0.0) on
anything else. -/
def pyFloat (s : List Char) : Option Rat :=
  match s with
  | [] => Option.none
  | c :: rest =>
    if c = '-' then (pyFloatBody rest).map (fun q => -q)
    else pyFloatBody s

/-- parse_number (src/backend.py lines 652-685): None and the empty
string give 0; numbers pass through; strings are cleaned to digits,
periods, commas and minus signs (the source's .strip() is the identity
on the cleaned string, which contains no whitespace), then the decimal
separator is disambiguated - when both comma and period occur the one
occurring last is the decimal point and the other is removed; a comma
alone is the decimal point - and the result is parsed with float(),
malformed input yielding 0. -/
def parse_number (value : PyVal) : Rat :=
  match value with
  | .none => 0
  | .str [] => 0
  | .num q => q
  | .str s₀ =>
    let s := s₀.filter keepChar
    if s = [] ∨ s = ['-'] then 0
    else
      let s :=
        if ',' ∈ s ∧ '.' ∈ s then
          if lastIdx ',' s > lastIdx '.' s then
            (s.filter (fun c => c ≠ '.')).map
              (fun c => if c = ',' then '.' else c)
          else s.filter (fun c => c ≠ ',')
        else if ',' ∈ s then
          s.map (fun c => if c = ',' then '.' else c)
        else s
      (pyFloat s).getD 0

/-- Smallest exponent k with d dividing 10^k, for denominators whose
only prime factors are 2 and 5 (such k is at most d); d + 1, which no
power of 10 honours, once the fuel runs out. -/
def decExpAux : Nat → Nat → Nat → Nat
  | 0, _, k => k
  | fuel + 1, d, k =>
    if 10 ^ k % d == 0 then k else decExpAux fuel d (k + 1)

def decExp (d : Nat) : Nat := decExpAux (d + 1) d 0

/-- Decimal digit characters of n, most significant first, empty for
0; the first argument is fuel (n itself always suffices, since n/10
shrinks), keeping the recursion structural. -/
def natDigitsAux : Nat → Nat → List Char
  | 0, _ => []
  | fuel + 1, n =>
    if n = 0 then []
    else natDigitsAux fuel (n / 10) ++ [Nat.digitChar (n % 10)]

/-- Decimal digit characters of n, most significant first. -/
def natDigits (n : Nat) : List Char := natDigitsAux n n

/-- Digit characters of m, with 0 rendered as "0". -/
def pyDigits (m : Nat) : List Char :=
  if m = 0 then ['0'] else natDigits m

/-- The digits of m left-padded with zeros to at least k+1 characters,
so that a decimal point k positions from the right always has a digit
on its left, as in str(0.05) = "0.05". -/
def pyPadded (k m : Nat) : List Char :=
  List.replicate (k + 1 - (pyDigits m).length) '0' ++ pyDigits m

/-- The scaled mantissa of q: the absolute value of q times 10^k as an
integer, where k is the number of fractional digits q needs. -/
def pyMant (q : Rat) : Nat := (|q| * ((10 : Rat) ^ decExp q.den)).num.toNat

/-- Positional rendering of a float whose exact value is the rational
q: sign, integer part, '.', and the fractional digits (a single '0'
when there are none, as in str(5.0) = "5.0").  The minimal exponent
makes the rendering trailing-zero-free, matching Python's
shortest-roundtrip repr on exactly-decimal values. -/
def pyStrPos (q : Rat) : List Char :=
  let k := decExp q.den
  let padded := pyPadded k (pyMant q)
  (if q < 0 then ['-'] else []) ++ padded.take (padded.length - k) ++
    '.' :: (if k = 0 then ['0'] else padded.drop (padded.length - k))

/-- Trailing zeros removed from a digit string, for the scientific
mantissa (str(2e16) = "2e+16", not "20000000000000000.0e+0"). -/
def quitarCerosFinales (l : List Char) : List Char :=
  (l.reverse.dropWhile (fun c => c == '0')).reverse

/-- Smallest magnitude CPython still renders positionally: values
below 10^-4 switch to scientific notation (str(1e-05) = "1e-05"). -/
def minPosicional : Rat := mkRat 1 10000

/-- Smallest magnitude CPython renders in scientific notation: values
of 10^16 and above (str(2e16) = "2e+16"). -/
def maxPosicional : Rat := mkRat (10 ^ 16) 1

/-- Scientific rendering of a float whose exact value is the rational
q, as CPython formats it: sign, the trailing-zero-free digits of the
mantissa with '.' after the first digit (omitted for a single digit),
'e', the exponent's sign, and the exponent padded to at least two
digits - str(1e-05) = "1e-05", str(2e16) = "2e+16",
str(1.5e16) = "1.5e+16". -/
def pyStrSci (q : Rat) : List Char :=
  let k := decExp q.den
  let dsAll := natDigits (pyMant q)
  let ds := quitarCerosFinales dsAll
  let e : Int := (dsAll.length : Int) - (k : Int) - 1
  (if q < 0 then ['-'] else []) ++
    (match ds with
     | [] => ['0']
     | d :: rest => d :: (if rest = [] then [] else '.' :: rest)) ++
    'e' :: (if e < 0 then '-' else '+') ::
    (if e.natAbs < 10 then '0' :: natDigits e.natAbs
     else natDigits e.natAbs)

/-- Python str() of a float whose exact value is the rational q:
positional notation for 0 and for magnitudes in [10^-4, 10^16),
scientific notation outside that range (CPython emits scientific
notation when the decimal exponent is at least 16 or below -4). -/
def pyStr (q : Rat) : List Char :=
  if q = 0 ∨ (minPosicional ≤ |q| ∧ |q| < maxPosicional) then
    pyStrPos q
  else pyStrSci q

theorem updateFirst_decomp {α : Type} (p : α → Bool) (l : List α) (f : α)
    (h : l.find? p = some f) :
    ∃ l₁ l₂, l = l₁ ++ f :: l₂ ∧ (∀ x ∈ l₁, p x = false) ∧
      ∀ g : α → α, updateFirst p g l = l₁ ++ g f :: l₂ := by
  induction l with
  | nil => simp at h
  | cons x xs ih =>
    cases hx : p x with
    | true =>
      rw [List.find?_cons_of_pos _ hx] at h
      cases h
      exact ⟨[], xs, rfl, by simp, fun g => by simp [updateFirst, hx]⟩
    | false =>
      rw [List.find?_cons_of_neg _ (by simp [hx])] at h
      obtain ⟨l₁, l₂, hl, hl₁, hu⟩ := ih h
      refine ⟨x :: l₁, l₂, by simp [hl], ?_, fun g => ?_⟩
      · intro y hy
        rcases List.mem_cons.mp hy with rfl | hy
        · exact hx
        · exact hl₁ y hy
      · simp [updateFirst, hx, hu g]

theorem removeFirst_append_of_not {α : Type} (p : α → Bool)
    (l₁ l₂ : List α) (h : ∀ x ∈ l₁, p x = false) :
    removeFirst p (l₁ ++ l₂) = l₁ ++ removeFirst p l₂ := by
  induction l₁ with
  | nil => simp
  | cons x xs ih =>
    have hx := h x (List.mem_cons_self x xs)
    simp [removeFirst, hx, ih (fun y hy => h y (List.mem_cons_of_mem x hy))]

theorem removeFirst_cons_of_pos {α : Type} (p : α → Bool) (x : α)
    (l : List α) (hx : p x = true) : removeFirst p (x :: l) = l := by
  simp [removeFirst, hx]

theorem mem_updateFirst {α : Type} (p : α → Bool) (g : α → α)
    (l : List α) (y : α) (hy : y ∈ updateFirst p g l) :
    y ∈ l ∨ ∃ x, x ∈ l ∧ p x = true ∧ y = g x := by
  induction l with
  | nil => simp [updateFirst] at hy
  | cons x xs ih =>
    by_cases hx : p x
    · simp only [updateFirst, hx, if_pos] at hy
      rcases List.mem_cons.mp hy with rfl | hy
      · exact Or.inr ⟨x, List.mem_cons_self x xs, hx, rfl⟩
      · exact Or.inl (List.mem_cons_of_mem x hy)
    · simp only [updateFirst, hx, if_neg, not_false_iff] at hy
      rcases List.mem_cons.mp hy with rfl | hy
      · exact Or.inl (List.mem_cons_self y xs)
      · rcases ih hy with h | ⟨z, hz, hpz, hyz⟩
        · exact Or.inl (List.mem_cons_of_mem x h)
        · exact Or.inr ⟨z, List.mem_cons_of_mem x hz, hpz, hyz⟩

theorem mem_removeFirst {α : Type} (p : α → Bool) (l : List α) (y : α)
    (hy : y ∈ removeFirst p l) : y ∈ l := by
  induction l with
  | nil => simp [removeFirst] at hy
  | cons x xs ih =>
    by_cases hx : p x
    · simp only [removeFirst, hx, if_pos] at hy
      exact List.mem_cons_of_mem x hy
    · simp only [removeFirst, hx, if_neg, not_false_iff] at hy
      rcases List.mem_cons.mp hy with rfl | hy
      · exact List.mem_cons_self y xs
      · exact List.mem_cons_of_mem x (ih hy)

theorem find?_append_of_not {α : Type} (p : α → Bool) (l₁ l₂ : List α)
    (h : ∀ x ∈ l₁, p x = false) : (l₁ ++ l₂).find? p = l₂.find? p := by
  induction l₁ with
  | nil => simp
  | cons x xs ih =>
    have hx := h x (List.mem_cons_self x xs)
    simp only [List.cons_append]
    rw [List.find?_cons_of_neg _ (by simp [hx])]
    exact ih (fun y hy => h y (List.mem_cons_of_mem x hy))

theorem tolerancia_nonneg : 0 ≤ tolerancia := by
  norm_num [tolerancia, Rat.mkRat_eq_div]

theorem abonoUpdateRow_of_le (a s : Rat) (hoy : String) (g : Factura)
    (h : s ≤ tolerancia) :
    abonoUpdateRow a s hoy g =
      { g with totalAbonado := a, saldoPendiente := max 0 s,
               pagado := true, fechaPago := some hoy,
               estado := .pagado } := by
  unfold abonoUpdateRow
  rw [if_pos h]

theorem abonoUpdateRow_of_gt (a s : Rat) (hoy : String) (g : Factura)
    (h : tolerancia < s) :
    abonoUpdateRow a s hoy g =
      { g with totalAbonado := a, saldoPendiente := max 0 s,
               estado := .abonoParcial } := by
  unfold abonoUpdateRow
  rw [if_neg (not_le.mpr h)]

theorem abonoUpdateRow_id (a s : Rat) (hoy : String) (g : Factura) :
    (abonoUpdateRow a s hoy g).id = g.id := by
  unfold abonoUpdateRow
  split <;> rfl

theorem abonoUpdateRow_montoCobrar (a s : Rat) (hoy : String)
    (g : Factura) : (abonoUpdateRow a s hoy g).montoCobrar =
      g.montoCobrar := by
  unfold abonoUpdateRow
  split <;> rfl

theorem abonoUpdateRow_totalAbonado (a s : Rat) (hoy : String)
    (g : Factura) : (abonoUpdateRow a s hoy g).totalAbonado = a := by
  unfold abonoUpdateRow
  split <;> rfl

theorem abonoUpdateRow_saldoPendiente (a s : Rat) (hoy : String)
    (g : Factura) : (abonoUpdateRow a s hoy g).saldoPendiente =
      max 0 s := by
  unfold abonoUpdateRow
  split <;> rfl

theorem facturaConsistente_abonoUpdateRow (f : Factura) (a : Rat)
    (hoy : String) (hA : 0 ≤ a)
    (hS : -tolerancia ≤ f.montoCobrar - a) :
    FacturaConsistente (abonoUpdateRow a (f.montoCobrar - a) hoy f) := by
  unfold FacturaConsistente
  rw [abonoUpdateRow_totalAbonado, abonoUpdateRow_montoCobrar,
    abonoUpdateRow_saldoPendiente]
  exact ⟨hA, hS, by simp [tolerancia_nonneg]⟩

theorem facturaConsistente_deleteUpdateRow (f : Factura) (m : Rat)
    (hm : 0 < m) (hf : FacturaConsistente f) :
    FacturaConsistente (deleteUpdateRow (max 0 (f.totalAbonado - m))
      (f.montoCobrar - max 0 (f.totalAbonado - m)) f) := by
  have hA : (0:Rat) ≤ max 0 (f.totalAbonado - m) := le_max_left 0 _
  have hle : max 0 (f.totalAbonado - m) ≤ f.totalAbonado :=
    max_le hf.1 (by linarith)
  have hS : -tolerancia ≤ f.montoCobrar - max 0 (f.totalAbonado - m) := by
    have := hf.2.1
    linarith
  refine ⟨hA, hS, ?_⟩
  show |(f.montoCobrar - max 0 (f.totalAbonado - m)) -
    max 0 (f.montoCobrar - max 0 (f.totalAbonado - m))| ≤ tolerancia
  rcases le_or_lt 0 (f.montoCobrar - max 0 (f.totalAbonado - m))
    with hpos | hneg
  · rw [max_eq_right hpos]
    simp [tolerancia_nonneg]
  · rw [max_eq_left (le_of_lt hneg), abs_le]
    constructor <;> simp only [sub_zero] <;> linarith

theorem add_abono_ok_consistente (st : SheetState) (req : AbonoReq)
    (abonoId hoy : String) (st' : SheetState) (h : Consistente st)
    (hok : add_abono st req abonoId hoy = .ok st') : Consistente st' := by
  unfold add_abono at hok
  by_cases h1 : req.facturaId = "" ∨ req.monto ≤ 0
  · simp [h1] at hok
  · rw [if_neg h1] at hok
    cases hfind : st.facturas.find? (fun f => f.id == req.facturaId) with
    | none => rw [hfind] at hok; cases hok
    | some f =>
      rw [hfind] at hok
      simp only at hok
      by_cases h2 : f.montoCobrar - (f.totalAbonado + req.monto) < -tolerancia
      · rw [if_pos h2] at hok; cases hok
      · rw [if_neg h2] at hok
        cases hok
        have hm : 0 < req.monto := lt_of_not_le (not_or.mp h1).2
        have hf : FacturaConsistente f :=
          h.1 f (List.mem_of_find?_eq_some hfind)
        obtain ⟨l₁, l₂, hl, hl₁, hu⟩ := updateFirst_decomp _ _ _ hfind
        constructor
        · intro y hy
          simp only [hu] at hy
          rcases List.mem_append.mp hy with hy1 | hy2
          · exact h.1 y (hl ▸ List.mem_append.mpr (Or.inl hy1))
          · rcases List.mem_cons.mp hy2 with rfl | hy2
            · exact facturaConsistente_abonoUpdateRow f
                (f.totalAbonado + req.monto) hoy
                (add_nonneg hf.1 (le_of_lt hm)) (le_of_not_lt h2)
            · exact h.1 y (hl ▸ List.mem_append.mpr
                (Or.inr (List.mem_cons_of_mem f hy2)))
        · intro ab hab
          rcases List.mem_append.mp hab with hab | hab
          · exact h.2 ab hab
          · rw [List.mem_singleton] at hab
            subst hab
            exact hm

theorem delete_abono_ok_consistente (st : SheetState) (abonoId : String)
    (st' : SheetState) (h : Consistente st)
    (hok : delete_abono st abonoId = .ok st') : Consistente st' := by
  unfold delete_abono at hok
  cases hfindAb : st.abonos.find? (fun a => a.id == abonoId) with
  | none => rw [hfindAb] at hok; cases hok
  | some ab =>
    rw [hfindAb] at hok
    simp only at hok
    have hmAb : 0 < ab.monto := h.2 ab (List.mem_of_find?_eq_some hfindAb)
    cases hok
    constructor
    · intro y hy
      simp only at hy
      cases hfindF : st.facturas.find? (fun f => f.id == ab.facturaId) with
      | none =>
        rw [hfindF] at hy
        exact h.1 y hy
      | some f =>
        rw [hfindF] at hy
        simp only at hy
        have hf : FacturaConsistente f :=
          h.1 f (List.mem_of_find?_eq_some hfindF)
        obtain ⟨l₁, l₂, hl, hl₁, hu⟩ := updateFirst_decomp _ _ _ hfindF
        rw [hu] at hy
        rcases List.mem_append.mp hy with hy1 | hy2
        · exact h.1 y (hl ▸ List.mem_append.mpr (Or.inl hy1))
        · rcases List.mem_cons.mp hy2 with rfl | hy2
          · exact facturaConsistente_deleteUpdateRow f ab.monto hmAb hf
          · exact h.1 y (hl ▸ List.mem_append.mpr
              (Or.inr (List.mem_cons_of_mem f hy2)))
    · intro y hy
      simp only at hy
      exact h.2 y (mem_removeFirst _ _ _ hy)

theorem removeFirst_decomp {α : Type} (p : α → Bool) (l : List α)
    (x : α) (h : l.find? p = some x) :
    ∃ l₁ l₂, l = l₁ ++ x :: l₂ ∧ (∀ z ∈ l₁, p z = false) ∧
      removeFirst p l = l₁ ++ l₂ := by
  obtain ⟨l₁, l₂, hl, hl₁, -⟩ := updateFirst_decomp p l x h
  refine ⟨l₁, l₂, hl, hl₁, ?_⟩
  rw [hl, removeFirst_append_of_not p l₁ _ hl₁,
    removeFirst_cons_of_pos p x l₂ (List.find?_some h)]

theorem sumMontos_cons (ab : Abono) (l : List Abono) :
    sumMontos (ab :: l) = ab.monto + sumMontos l := by
  simp [sumMontos]

theorem ids_ne_of_nodup (l₁ l₂ : List Factura) (f : Factura)
    (h : ((l₁ ++ f :: l₂).map (fun x => x.id)).Nodup) :
    (∀ y ∈ l₁, y.id ≠ f.id) ∧ ∀ y ∈ l₂, y.id ≠ f.id := by
  rw [List.map_append, List.map_cons, List.nodup_append] at h
  obtain ⟨-, h2, h3⟩ := h
  constructor
  · intro y hy he
    exact h3 (List.mem_map_of_mem _ hy) (he ▸ List.mem_cons_self _ _)
  · intro y hy he
    exact (List.nodup_cons.mp h2).1 (he ▸ List.mem_map_of_mem _ hy)

theorem deleteUpdateRow_id (a s : Rat) (g : Factura) :
    (deleteUpdateRow a s g).id = g.id := rfl

theorem deleteUpdateRow_totalAbonado (a s : Rat) (g : Factura) :
    (deleteUpdateRow a s g).totalAbonado = a := rfl

theorem sumMontos_append (l₁ l₂ : List Abono) :
    sumMontos (l₁ ++ l₂) = sumMontos l₁ + sumMontos l₂ := by
  simp [sumMontos]

theorem sumMontos_nonneg (l : List Abono)
    (h : ∀ ab ∈ l, 0 ≤ ab.monto) : 0 ≤ sumMontos l := by
  induction l with
  | nil => simp [sumMontos]
  | cons ab l ih =>
    have h1 := h ab (List.mem_cons_self ab l)
    have h2 := ih (fun x hx => h x (List.mem_cons_of_mem ab hx))
    rw [sumMontos_cons]
    linarith

theorem sumMontos_append_singleton (la : List Abono) (ab2 : Abono)
    (i : String) :
    sumMontos ((la ++ [ab2]).filter (fun a => a.facturaId == i)) =
      sumMontos (la.filter (fun a => a.facturaId == i)) +
        (if ab2.facturaId == i then ab2.monto else 0) := by
  rw [List.filter_append, sumMontos_append]
  by_cases hi : (ab2.facturaId == i) = true
  · rw [if_pos hi]
    simp [List.filter_cons, hi, sumMontos]
  · rw [if_neg hi]
    simp [List.filter_cons, hi, sumMontos]

theorem add_abono_ok_sumas (st : SheetState) (req : AbonoReq)
    (abonoId hoy : String) (st' : SheetState) (h : SumasConsistentes st)
    (hok : add_abono st req abonoId hoy = .ok st') :
    SumasConsistentes st' := by
  unfold add_abono at hok
  by_cases h1 : req.facturaId = "" ∨ req.monto ≤ 0
  · simp [h1] at hok
  · rw [if_neg h1] at hok
    cases hfind : st.facturas.find? (fun f => f.id == req.facturaId) with
    | none => rw [hfind] at hok; cases hok
    | some f =>
      rw [hfind] at hok
      simp only at hok
      by_cases h2 : f.montoCobrar - (f.totalAbonado + req.monto) < -tolerancia
      · rw [if_pos h2] at hok; cases hok
      · rw [if_neg h2] at hok
        cases hok
        have hm : 0 < req.monto := lt_of_not_le (not_or.mp h1).2
        have hpf := List.find?_some hfind
        have hfid : f.id = req.facturaId := eq_of_beq hpf
        obtain ⟨l₁, l₂, hl, hl₁, hu⟩ := updateFirst_decomp _ _ _ hfind
        have hne := ids_ne_of_nodup l₁ l₂ f (hl ▸ h.1)
        refine ⟨?_, ?_, ?_⟩
        · simp only [hu]
          have hmap : ((l₁ ++ abonoUpdateRow (f.totalAbonado + req.monto)
              (f.montoCobrar - (f.totalAbonado + req.monto)) hoy f ::
                l₂).map (fun x => x.id)) =
              ((l₁ ++ f :: l₂).map (fun x => x.id)) := by
            simp [abonoUpdateRow_id]
          rw [hmap]
          exact hl ▸ h.1
        · intro ab2 hab
          rcases List.mem_append.mp hab with hab | hab
          · exact h.2.1 ab2 hab
          · rw [List.mem_singleton] at hab
            subst hab
            exact le_of_lt hm
        · intro y hy
          simp only [hu] at hy
          simp only [abonosDe, sumMontos_append_singleton]
          rcases List.mem_append.mp hy with hy1 | hy2
          · have hyne : y.id ≠ f.id := hne.1 y hy1
            have hreq : (req.facturaId == y.id) = false := by
              rw [beq_eq_false_iff_ne]
              intro he
              exact hyne (by rw [hfid, he])
            rw [hreq]
            simp only [Bool.false_eq_true, if_false, add_zero]
            exact h.2.2 y (hl ▸ List.mem_append.mpr (Or.inl hy1))
          · rcases List.mem_cons.mp hy2 with rfl | hy2
            · rw [abonoUpdateRow_id, abonoUpdateRow_totalAbonado]
              have hreq : (req.facturaId == f.id) = true := by
                rw [beq_iff_eq]
                exact hfid.symm
              rw [hreq, if_pos rfl]
              have hSf := h.2.2 f (hl ▸ List.mem_append.mpr
                (Or.inr (List.mem_cons_self f l₂)))
              simp only [abonosDe] at hSf
              rw [hSf]
            · have hyne : y.id ≠ f.id := hne.2 y hy2
              have hreq : (req.facturaId == y.id) = false := by
                rw [beq_eq_false_iff_ne]
                intro he
                exact hyne (by rw [hfid, he])
              rw [hreq]
              simp only [Bool.false_eq_true, if_false, add_zero]
              exact h.2.2 y (hl ▸ List.mem_append.mpr
                (Or.inr (List.mem_cons_of_mem f hy2)))

theorem filter_middle_not (p : Abono → Bool) (a₁ a₂ : List Abono)
    (ab : Abono) (hf : p ab = false) :
    (a₁ ++ ab :: a₂).filter p = (a₁ ++ a₂).filter p := by
  simp [List.filter_append, List.filter_cons, hf]

theorem delete_abono_ok_sumas (st : SheetState) (abonoId : String)
    (st' : SheetState) (h : SumasConsistentes st)
    (hok : delete_abono st abonoId = .ok st') :
    SumasConsistentes st' := by
  unfold delete_abono at hok
  cases hfindAb : st.abonos.find? (fun a => a.id == abonoId) with
  | none => rw [hfindAb] at hok; cases hok
  | some ab =>
    rw [hfindAb] at hok
    simp only at hok
    cases hok
    obtain ⟨a₁, a₂, hla, hla₁, hra⟩ := removeFirst_decomp _ _ _ hfindAb
    have habmem : ∀ z, z ∈ a₁ ++ a₂ → z ∈ st.abonos := by
      intro z hz
      rw [hla]
      rcases List.mem_append.mp hz with h1 | h2
      · exact List.mem_append.mpr (Or.inl h1)
      · exact List.mem_append.mpr (Or.inr (List.mem_cons_of_mem ab h2))
    cases hfindF : st.facturas.find? (fun f => f.id == ab.facturaId) with
    | none =>
      simp only
      have hnotmem : ∀ y ∈ st.facturas, (ab.facturaId == y.id) = false := by
        intro y hy
        have h0 := List.find?_eq_none.mp hfindF y hy
        rw [beq_eq_false_iff_ne]
        intro he
        apply h0
        simp [he]
      refine ⟨h.1, ?_, ?_⟩
      · intro z hz
        rw [hra] at hz
        exact h.2.1 z (habmem z hz)
      · intro y hy
        simp only [abonosDe, hra]
        rw [← filter_middle_not _ a₁ a₂ ab (hnotmem y hy), ← hla]
        exact h.2.2 y hy
    | some f =>
      simp only
      have hpf := List.find?_some hfindF
      have hfid : f.id = ab.facturaId := eq_of_beq hpf
      obtain ⟨l₁, l₂, hl, hl₁, hu⟩ := updateFirst_decomp _ _ _ hfindF
      have hne := ids_ne_of_nodup l₁ l₂ f (hl ▸ h.1)
      rw [hu]
      have hfar : ∀ y : Factura, y.id ≠ f.id →
          (ab.facturaId == y.id) = false := by
        intro y hyne
        rw [beq_eq_false_iff_ne]
        intro he
        exact hyne (by rw [hfid, he])
      refine ⟨?_, ?_, ?_⟩
      · have hmap : ((l₁ ++ deleteUpdateRow
            (max 0 (f.totalAbonado - ab.monto))
            (f.montoCobrar - max 0 (f.totalAbonado - ab.monto)) f ::
              l₂).map (fun x => x.id)) =
            ((l₁ ++ f :: l₂).map (fun x => x.id)) := by
          simp [deleteUpdateRow_id]
        rw [hmap]
        exact hl ▸ h.1
      · intro z hz
        rw [hra] at hz
        exact h.2.1 z (habmem z hz)
      · intro y hy
        rcases List.mem_append.mp hy with hy1 | hy2
        · have hyne : y.id ≠ f.id := hne.1 y hy1
          simp only [abonosDe, hra]
          rw [← filter_middle_not _ a₁ a₂ ab (hfar y hyne), ← hla]
          exact h.2.2 y (hl ▸ List.mem_append.mpr (Or.inl hy1))
        · rcases List.mem_cons.mp hy2 with rfl | hy2
          · rw [deleteUpdateRow_id, deleteUpdateRow_totalAbonado]
            have hSf := h.2.2 f (hl ▸ List.mem_append.mpr
              (Or.inr (List.mem_cons_self f l₂)))
            simp only [abonosDe] at hSf
            rw [hla] at hSf
            have habf : (ab.facturaId == f.id) = true := by
              rw [beq_iff_eq]
              exact hfid.symm
            rw [List.filter_append, List.filter_cons] at hSf
            rw [habf] at hSf
            simp only [if_pos] at hSf
            rw [sumMontos_append, sumMontos_cons] at hSf
            simp only [abonosDe, hra]
            rw [List.filter_append, sumMontos_append]
            have hn1 : 0 ≤ sumMontos (a₁.filter
                (fun a => a.facturaId == f.id)) := by
              apply sumMontos_nonneg
              intro z hz
              exact h.2.1 z (habmem z (List.mem_append.mpr
                (Or.inl (List.mem_of_mem_filter hz))))
            have hn2 : 0 ≤ sumMontos (a₂.filter
                (fun a => a.facturaId == f.id)) := by
              apply sumMontos_nonneg
              intro z hz
              exact h.2.1 z (habmem z (List.mem_append.mpr
                (Or.inr (List.mem_of_mem_filter hz))))
            rw [max_eq_right (by linarith)]
            linarith
          · have hyne : y.id ≠ f.id := hne.2 y hy2
            simp only [abonosDe, hra]
            rw [← filter_middle_not _ a₁ a₂ ab (hfar y hyne), ← hla]
            exact h.2.2 y (hl ▸ List.mem_append.mpr
              (Or.inr (List.mem_cons_of_mem f hy2)))

theorem sumas_applyOp (st : SheetState) (op : Op)
    (h : SumasConsistentes st) : SumasConsistentes (applyOp st op) := by
  cases op with
  | abonar req abonoId hoy =>
    simp only [applyOp]
    cases hadd : add_abono st req abonoId hoy with
    | ok st' => exact add_abono_ok_sumas st req abonoId hoy st' h hadd
    | error e => exact h
  | eliminarAbono abonoId =>
    simp only [applyOp]
    cases hdel : delete_abono st abonoId with
    | ok st' => exact delete_abono_ok_sumas st abonoId st' h hdel
    | error e => exact h

theorem sumas_runOps (st : SheetState) (ops : List Op)
    (h : SumasConsistentes st) : SumasConsistentes (runOps st ops) := by
  induction ops generalizing st with
  | nil => exact h
  | cons op ops ih => exact ih (applyOp st op) (sumas_applyOp st op h)

theorem consistente_applyOp (st : SheetState) (op : Op)
    (h : Consistente st) : Consistente (applyOp st op) := by
  cases op with
  | abonar req abonoId hoy =>
    simp only [applyOp]
    cases hadd : add_abono st req abonoId hoy with
    | ok st' => exact add_abono_ok_consistente st req abonoId hoy st' h hadd
    | error e => exact h
  | eliminarAbono abonoId =>
    simp only [applyOp]
    cases hdel : delete_abono st abonoId with
    | ok st' => exact delete_abono_ok_consistente st abonoId st' h hdel
    | error e => exact h

theorem consistente_runOps (st : SheetState) (ops : List Op)
    (h : Consistente st) : Consistente (runOps st ops) := by
  induction ops generalizing st with
  | nil => exact h
  | cons op ops ih => exact ih (applyOp st op) (consistente_applyOp st op h)

theorem updateFirst_append_of_not {α : Type} (p : α → Bool)
    (g : α → α) (l₁ l₂ : List α) (h : ∀ x ∈ l₁, p x = false) :
    updateFirst p g (l₁ ++ l₂) = l₁ ++ updateFirst p g l₂ := by
  induction l₁ with
  | nil => simp
  | cons x xs ih =>
    have hx := h x (List.mem_cons_self x xs)
    simp [updateFirst, hx,
      ih (fun y hy => h y (List.mem_cons_of_mem x hy))]

theorem updateFirst_cons_of_pos {α : Type} (p : α → Bool) (g : α → α)
    (x : α) (l : List α) (hx : p x = true) :
    updateFirst p g (x :: l) = g x :: l := by
  simp [updateFirst, hx]

theorem deleteUpdateRow_saldoPendiente (a s : Rat) (g : Factura) :
    (deleteUpdateRow a s g).saldoPendiente = s := rfl

theorem deleteUpdateRow_estado (a s : Rat) (g : Factura) :
    (deleteUpdateRow a s g).estado =
      if a > 0 then .abonoParcial else .pendiente := rfl

theorem deleteUpdateRow_pagado (a s : Rat) (g : Factura) :
    (deleteUpdateRow a s g).pagado = false := rfl

theorem delete_abono_spec (st : SheetState) (aid : String) (ab : Abono)
    (f : Factura)
    (hab : st.abonos.find? (fun a => a.id == aid) = some ab)
    (hfa : st.facturas.find? (fun g => g.id == ab.facturaId) = some f) :
    ∃ st'', delete_abono st aid = .ok st'' ∧
      st''.abonos = removeFirst (fun a => a.id == aid) st.abonos ∧
      st''.facturas.find? (fun g => g.id == ab.facturaId) =
        some (deleteUpdateRow (max 0 (f.totalAbonado - ab.monto))
          (f.montoCobrar - max 0 (f.totalAbonado - ab.monto)) f) := by
  obtain ⟨l₁, l₂, hl, hl₁, hu⟩ := updateFirst_decomp _ _ _ hfa
  have hpf := List.find?_some hfa
  have hpdf : ((deleteUpdateRow (max 0 (f.totalAbonado - ab.monto))
      (f.montoCobrar - max 0 (f.totalAbonado - ab.monto)) f).id ==
        ab.facturaId) = true := by
    rw [deleteUpdateRow_id]
    exact hpf
  refine ⟨{ facturas := updateFirst (fun g => g.id == ab.facturaId)
                (deleteUpdateRow (max 0 (f.totalAbonado - ab.monto))
                  (f.montoCobrar - max 0 (f.totalAbonado - ab.monto)))
                st.facturas,
              abonos := removeFirst (fun a => a.id == aid) st.abonos },
    ?_, rfl, ?_⟩
  · unfold delete_abono
    rw [hab]
    simp only
    rw [hfa]
  · show (updateFirst (fun g => g.id == ab.facturaId)
      (deleteUpdateRow (max 0 (f.totalAbonado - ab.monto))
        (f.montoCobrar - max 0 (f.totalAbonado - ab.monto)))
      st.facturas).find? (fun g => g.id == ab.facturaId) = _
    rw [hu, find?_append_of_not _ _ _ hl₁]
    exact List.find?_cons_of_pos _ hpdf

theorem delete_abono_nunca_pagado (st₀ : SheetState) (aid : String)
    (st₁ : SheetState) (hok : delete_abono st₀ aid = .ok st₁) :
    ∀ y ∈ st₁.facturas, y ∈ st₀.facturas ∨
      (y.estado ≠ .pagado ∧ y.pagado = false ∧
        (y.estado = .pendiente ↔ y.totalAbonado = 0)) := by
  unfold delete_abono at hok
  cases hab : st₀.abonos.find? (fun a => a.id == aid) with
  | none => rw [hab] at hok; cases hok
  | some ab =>
    rw [hab] at hok
    simp only at hok
    cases hok
    intro y hy
    simp only at hy
    cases hfa : st₀.facturas.find? (fun g => g.id == ab.facturaId) with
    | none =>
      rw [hfa] at hy
      exact Or.inl hy
    | some f =>
      rw [hfa] at hy
      simp only at hy
      obtain ⟨l₁, l₂, hl, hl₁, hu⟩ := updateFirst_decomp _ _ _ hfa
      rw [hu] at hy
      rcases List.mem_append.mp hy with hy1 | hy2
      · exact Or.inl (hl ▸ List.mem_append.mpr (Or.inl hy1))
      · rcases List.mem_cons.mp hy2 with rfl | hy2
        · right
          rw [deleteUpdateRow_estado, deleteUpdateRow_pagado,
            deleteUpdateRow_totalAbonado]
          by_cases hpos : max 0 (f.totalAbonado - ab.monto) > 0
          · rw [if_pos hpos]
            refine ⟨fun hc => Estado.noConfusion hc, rfl, ?_⟩
            constructor
            · intro hc
              exact absurd hc (fun hc => Estado.noConfusion hc)
            · intro hc
              rw [hc] at hpos
              exact absurd hpos (lt_irrefl 0)
          · rw [if_neg hpos]
            refine ⟨fun hc => Estado.noConfusion hc, rfl, ?_⟩
            constructor
            · intro _
              exact le_antisymm (not_lt.mp hpos) (le_max_left 0 _)
            · intro _
              rfl
        · exact Or.inl (hl ▸ List.mem_append.mpr
            (Or.inr (List.mem_cons_of_mem f hy2)))

/-- Claim C1: for every invoice and every finite sequence of
RegisterPayment (add_abono) and ReversePayment (delete_abono) calls
starting from a consistent state, the stored SaldoPendiente equals
max 0 (montoCobrar - totalAbonado) within the 0.01 tolerance, and in
particular never becomes negative beyond that tolerance.  The run
keeps the sheets unchanged on failed calls, so the statement covers
exactly the successful operations. -/
theorem C1_saldo_invariant (st : SheetState) (ops : List Op)
    (hfac : ∀ f ∈ st.facturas, FacturaConsistente f)
    (hab : ∀ ab ∈ st.abonos, 0 < ab.monto) :
    ∀ f ∈ (runOps st ops).facturas,
      |f.saldoPendiente - max 0 (f.montoCobrar - f.totalAbonado)| ≤
        tolerancia ∧
      -tolerancia ≤ f.saldoPendiente := by
  intro f hf
  have h := consistente_runOps st ops ⟨hfac, hab⟩
  have hc := h.1 f hf
  refine ⟨hc.2.2, ?_⟩
  have h1 := (abs_le.mp hc.2.2).1
  have h2 : (0:Rat) ≤ max 0 (f.montoCobrar - f.totalAbonado) :=
    le_max_left 0 _
  linarith

theorem C1_saldo_invariant_witness :
    (∀ f ∈ stEj.facturas, FacturaConsistente f) ∧
    (∀ ab ∈ stEj.abonos, 0 < ab.monto) ∧
    ∀ f ∈ (runOps stEj opsEj).facturas,
      |f.saldoPendiente - max 0 (f.montoCobrar - f.totalAbonado)| ≤
        tolerancia ∧
      -tolerancia ≤ f.saldoPendiente :=
  ⟨by decide, by decide,
   C1_saldo_invariant stEj opsEj (by decide) (by decide)⟩

/-- Claim C5: after any finite sequence of RegisterPayment (add_abono)
and ReversePayment (delete_abono) calls starting from a consistent
state with unique invoice ids, the sum of the amounts of the stored
abono rows of every invoice equals that invoice's stored TotalAbonado
cell. -/
theorem C5_total_abonado_es_suma (st : SheetState) (ops : List Op)
    (hnd : (st.facturas.map (fun f => f.id)).Nodup)
    (hpos : ∀ ab ∈ st.abonos, 0 ≤ ab.monto)
    (hsum : ∀ f ∈ st.facturas, sumMontos (abonosDe st f.id) =
      f.totalAbonado) :
    ∀ f ∈ (runOps st ops).facturas,
      sumMontos (abonosDe (runOps st ops) f.id) = f.totalAbonado :=
  (sumas_runOps st ops ⟨hnd, hpos, hsum⟩).2.2

theorem C5_total_abonado_es_suma_witness :
    (stEj.facturas.map (fun f => f.id)).Nodup ∧
    (∀ ab ∈ stEj.abonos, 0 ≤ ab.monto) ∧
    (∀ f ∈ stEj.facturas, sumMontos (abonosDe stEj f.id) =
      f.totalAbonado) ∧
    ∀ f ∈ (runOps stEj opsEj).facturas,
      sumMontos (abonosDe (runOps stEj opsEj) f.id) = f.totalAbonado :=
  ⟨by decide, by decide, by decide,
   C5_total_abonado_es_suma stEj opsEj (by decide) (by decide) (by decide)⟩

/-- Claim C2: for an invoice resolved by add_abono with net
collectible N and accumulated total A, a call with amount m fails with
a ValidationError exactly when m is nonpositive or A + m exceeds
N + 0.01; any failure leaves the whole sheet state unchanged (no abono
row is created, no invoice cell is rewritten), and the overpayment
error carries the available balance N - A. -/
theorem C2_add_abono_rechazo (st : SheetState) (req : AbonoReq)
    (abonoId hoy : String) (f : Factura)
    (hid : req.facturaId ≠ "")
    (hf : st.facturas.find? (fun g => g.id == req.facturaId) = some f) :
    ((∃ e, add_abono st req abonoId hoy = .error e ∧
        e.isValidation = true) ↔
      (req.monto ≤ 0 ∨
        f.montoCobrar + tolerancia < f.totalAbonado + req.monto)) ∧
    (∀ e, add_abono st req abonoId hoy = .error e →
      applyOp st (.abonar req abonoId hoy) = st) ∧
    (¬ req.monto ≤ 0 →
      f.montoCobrar + tolerancia < f.totalAbonado + req.monto →
      add_abono st req abonoId hoy =
        .error (.validationExcedeSaldo
          (f.montoCobrar - f.totalAbonado))) := by
  refine ⟨?_, ?_, ?_⟩
  · by_cases hm : req.monto ≤ 0
    · constructor
      · intro _
        exact Or.inl hm
      · intro _
        refine ⟨.validationMonto, ?_, rfl⟩
        unfold add_abono
        rw [if_pos (Or.inr hm)]
    · have h1 : ¬ (req.facturaId = "" ∨ req.monto ≤ 0) :=
        not_or.mpr ⟨hid, hm⟩
      by_cases h2 : f.montoCobrar - (f.totalAbonado + req.monto) <
          -tolerancia
      · constructor
        · intro _
          refine Or.inr (by linarith)
        · intro _
          refine ⟨.validationExcedeSaldo
            (f.montoCobrar - f.totalAbonado), ?_, rfl⟩
          unfold add_abono
          rw [if_neg h1, hf]
          simp only
          rw [if_pos h2]
      · constructor
        · rintro ⟨e, he, -⟩
          exfalso
          unfold add_abono at he
          rw [if_neg h1, hf] at he
          simp only at he
          rw [if_neg h2] at he
          cases he
        · rintro (hc | hc)
          · exact absurd hc hm
          · exact absurd (by linarith : f.montoCobrar -
              (f.totalAbonado + req.monto) < -tolerancia) h2
  · intro e he
    simp only [applyOp, he]
  · intro hm hover
    unfold add_abono
    rw [if_neg (not_or.mpr ⟨hid, hm⟩), hf]
    simp only
    rw [if_pos (by linarith : f.montoCobrar -
      (f.totalAbonado + req.monto) < -tolerancia)]

theorem C2_add_abono_rechazo_witness :
    reqEj15.facturaId ≠ "" ∧
    stEj90.facturas.find? (fun g => g.id == reqEj15.facturaId) =
      some fEj90 ∧
    (((∃ e, add_abono stEj90 reqEj15 "A1" "2026-02-01" = .error e ∧
        e.isValidation = true) ↔
      (reqEj15.monto ≤ 0 ∨
        fEj90.montoCobrar + tolerancia <
          fEj90.totalAbonado + reqEj15.monto)) ∧
    (∀ e, add_abono stEj90 reqEj15 "A1" "2026-02-01" = .error e →
      applyOp stEj90 (.abonar reqEj15 "A1" "2026-02-01") = stEj90) ∧
    (¬ reqEj15.monto ≤ 0 →
      fEj90.montoCobrar + tolerancia <
        fEj90.totalAbonado + reqEj15.monto →
      add_abono stEj90 reqEj15 "A1" "2026-02-01" =
        .error (.validationExcedeSaldo
          (fEj90.montoCobrar - fEj90.totalAbonado)))) :=
  ⟨by decide, by decide,
   C2_add_abono_rechazo stEj90 reqEj15 "A1" "2026-02-01" fEj90
     (by decide) (by decide)⟩

/-- Claim C3: a RegisterPayment (add_abono) call that passes the
validations appends exactly one abono row carrying the paid amount,
sets the invoice's TotalAbonado to the old total plus the amount and
its SaldoPendiente to max 0 (montoCobrar - new total), and, when the
new arithmetic balance is at most 0.01, marks the invoice Pagado with
a settlement date, otherwise sets Estado to "Abono Parcial". -/
theorem C3_add_abono_exito (st : SheetState) (req : AbonoReq)
    (abonoId hoy : String) (f : Factura)
    (hid : req.facturaId ≠ "")
    (hm : 0 < req.monto)
    (hf : st.facturas.find? (fun g => g.id == req.facturaId) = some f)
    (hok : f.totalAbonado + req.monto ≤ f.montoCobrar + tolerancia) :
    ∃ st', add_abono st req abonoId hoy = .ok st' ∧
      st'.abonos = st.abonos ++
        [{ id := abonoId, facturaId := req.facturaId,
           consecutivo := f.consecutivo, fecha := req.fecha,
           monto := req.monto, metodoPago := req.metodoPago,
           referencia := req.referencia, notas := req.notas }] ∧
      ∃ f', st'.facturas.find? (fun g => g.id == req.facturaId) =
          some f' ∧
        f'.totalAbonado = f.totalAbonado + req.monto ∧
        f'.saldoPendiente =
          max 0 (f.montoCobrar - (f.totalAbonado + req.monto)) ∧
        (f.montoCobrar - (f.totalAbonado + req.monto) ≤ tolerancia →
          f'.estado = .pagado ∧ f'.pagado = true ∧
          f'.fechaPago = some hoy) ∧
        (tolerancia < f.montoCobrar - (f.totalAbonado + req.monto) →
          f'.estado = .abonoParcial ∧ f'.pagado = f.pagado) := by
  have h1 : ¬ (req.facturaId = "" ∨ req.monto ≤ 0) :=
    not_or.mpr ⟨hid, not_le.mpr hm⟩
  have h2 : ¬ (f.montoCobrar - (f.totalAbonado + req.monto) <
      -tolerancia) := by
    intro hc
    linarith
  refine ⟨{ facturas := updateFirst (fun g => g.id == req.facturaId)
                (abonoUpdateRow (f.totalAbonado + req.monto)
                  (f.montoCobrar - (f.totalAbonado + req.monto)) hoy)
                st.facturas,
              abonos := st.abonos ++
                [{ id := abonoId, facturaId := req.facturaId,
                   consecutivo := f.consecutivo, fecha := req.fecha,
                   monto := req.monto, metodoPago := req.metodoPago,
                   referencia := req.referencia,
                   notas := req.notas }] },
    ?_, rfl, ?_⟩
  · unfold add_abono
    rw [if_neg h1, hf]
    simp only
    rw [if_neg h2]
  · obtain ⟨l₁, l₂, hl, hl₁, hu⟩ := updateFirst_decomp _ _ _ hf
    refine ⟨abonoUpdateRow (f.totalAbonado + req.monto)
      (f.montoCobrar - (f.totalAbonado + req.monto)) hoy f, ?_, ?_, ?_,
      ?_, ?_⟩
    · show (updateFirst (fun g => g.id == req.facturaId)
        (abonoUpdateRow (f.totalAbonado + req.monto)
          (f.montoCobrar - (f.totalAbonado + req.monto)) hoy)
        st.facturas).find? (fun g => g.id == req.facturaId) = _
      have hpf := List.find?_some hf
      have hpgf : ((abonoUpdateRow (f.totalAbonado + req.monto)
          (f.montoCobrar - (f.totalAbonado + req.monto)) hoy f).id ==
            req.facturaId) = true := by
        rw [abonoUpdateRow_id]
        exact hpf
      rw [hu, find?_append_of_not _ _ _ hl₁]
      exact List.find?_cons_of_pos _ hpgf
    · exact abonoUpdateRow_totalAbonado _ _ _ _
    · exact abonoUpdateRow_saldoPendiente _ _ _ _
    · intro hle
      rw [abonoUpdateRow_of_le _ _ _ _ hle]
      exact ⟨rfl, rfl, rfl⟩
    · intro hgt
      rw [abonoUpdateRow_of_gt _ _ _ _ hgt]
      exact ⟨rfl, rfl⟩

theorem C3_add_abono_exito_witness :
    reqEj50.facturaId ≠ "" ∧ 0 < reqEj50.monto ∧
    stEj50.facturas.find? (fun g => g.id == reqEj50.facturaId) =
      some fEj50 ∧
    fEj50.totalAbonado + reqEj50.monto ≤
      fEj50.montoCobrar + tolerancia ∧
    (∃ st', add_abono stEj50 reqEj50 "A1" "2026-02-01" = .ok st' ∧
      st'.abonos = stEj50.abonos ++
        [{ id := "A1", facturaId := reqEj50.facturaId,
           consecutivo := fEj50.consecutivo, fecha := reqEj50.fecha,
           monto := reqEj50.monto, metodoPago := reqEj50.metodoPago,
           referencia := reqEj50.referencia,
           notas := reqEj50.notas }] ∧
      ∃ f', st'.facturas.find? (fun g => g.id == reqEj50.facturaId) =
          some f' ∧
        f'.totalAbonado = fEj50.totalAbonado + reqEj50.monto ∧
        f'.saldoPendiente = max 0 (fEj50.montoCobrar -
          (fEj50.totalAbonado + reqEj50.monto)) ∧
        (fEj50.montoCobrar - (fEj50.totalAbonado + reqEj50.monto) ≤
            tolerancia →
          f'.estado = .pagado ∧ f'.pagado = true ∧
          f'.fechaPago = some "2026-02-01") ∧
        (tolerancia < fEj50.montoCobrar -
            (fEj50.totalAbonado + reqEj50.monto) →
          f'.estado = .abonoParcial ∧ f'.pagado = fEj50.pagado)) :=
  ⟨by decide, by decide, by decide, by decide,
   C3_add_abono_exito stEj50 reqEj50 "A1" "2026-02-01" fEj50
     (by decide) (by decide) (by decide) (by decide)⟩

/-- Claim C4: on an invoice in a non-terminal state (Pendiente or
Abono Parcial, paid flag clear, stored balance and state agreeing with
the accumulated total), a successful RegisterPayment (add_abono)
followed by ReversePayment (delete_abono) of that same payment
restores the abono sheet and the invoice's TotalAbonado,
SaldoPendiente, Estado and Pagado cells; moreover delete_abono never
leaves an updated invoice in state Pagado - it yields Pendiente when
the new accumulated total is 0, Abono Parcial otherwise, and clears
the paid flag. -/
theorem C4_reverso_restaura (st st' : SheetState) (req : AbonoReq)
    (abonoId hoy : String) (f : Factura)
    (hf : st.facturas.find? (fun g => g.id == req.facturaId) = some f)
    (hnt : f.estado = .pendiente ∨ f.estado = .abonoParcial)
    (hpg : f.pagado = false)
    (hsaldo : f.saldoPendiente = f.montoCobrar - f.totalAbonado)
    (hA : 0 ≤ f.totalAbonado)
    (hpend : f.estado = .pendiente ↔ f.totalAbonado = 0)
    (hfresh : ∀ ab ∈ st.abonos, ab.id ≠ abonoId)
    (hok : add_abono st req abonoId hoy = .ok st') :
    (∃ st'', delete_abono st' abonoId = .ok st'' ∧
      st''.abonos = st.abonos ∧
      ∃ f'', st''.facturas.find? (fun g => g.id == req.facturaId) =
          some f'' ∧
        f''.totalAbonado = f.totalAbonado ∧
        f''.saldoPendiente = f.saldoPendiente ∧
        f''.estado = f.estado ∧
        f''.pagado = f.pagado) ∧
    (∀ st₀ aid st₁, delete_abono st₀ aid = .ok st₁ →
      ∀ y ∈ st₁.facturas, y ∈ st₀.facturas ∨
        (y.estado ≠ .pagado ∧ y.pagado = false ∧
          (y.estado = .pendiente ↔ y.totalAbonado = 0))) := by
  refine ⟨?_, delete_abono_nunca_pagado⟩
  unfold add_abono at hok
  by_cases h1 : req.facturaId = "" ∨ req.monto ≤ 0
  · rw [if_pos h1] at hok
    cases hok
  · rw [if_neg h1, hf] at hok
    simp only at hok
    by_cases h2 : f.montoCobrar - (f.totalAbonado + req.monto) <
        -tolerancia
    · rw [if_pos h2] at hok
      cases hok
    · rw [if_neg h2] at hok
      cases hok
      obtain ⟨l₁, l₂, hl, hl₁, hu⟩ := updateFirst_decomp _ _ _ hf
      have hpf := List.find?_some hf
      have hnotab : ∀ x ∈ st.abonos, (x.id == abonoId) = false := by
        intro x hx
        rw [beq_eq_false_iff_ne]
        exact hfresh x hx
      have hfAb : (st.abonos ++
          [({ id := abonoId, facturaId := req.facturaId,
              consecutivo := f.consecutivo, fecha := req.fecha,
              monto := req.monto, metodoPago := req.metodoPago,
              referencia := req.referencia,
              notas := req.notas } : Abono)]).find?
            (fun a => a.id == abonoId) = some
          ({ id := abonoId, facturaId := req.facturaId,
             consecutivo := f.consecutivo, fecha := req.fecha,
             monto := req.monto, metodoPago := req.metodoPago,
             referencia := req.referencia, notas := req.notas } :
            Abono) := by
        rw [find?_append_of_not _ _ _ hnotab]
        exact List.find?_cons_of_pos _ (by simp)
      have hpgf : ((abonoUpdateRow (f.totalAbonado + req.monto)
          (f.montoCobrar - (f.totalAbonado + req.monto)) hoy f).id ==
            req.facturaId) = true := by
        rw [abonoUpdateRow_id]
        exact hpf
      have hfF2 : (updateFirst (fun g => g.id == req.facturaId)
          (abonoUpdateRow (f.totalAbonado + req.monto)
            (f.montoCobrar - (f.totalAbonado + req.monto)) hoy)
          st.facturas).find? (fun g => g.id == req.facturaId) =
          some (abonoUpdateRow (f.totalAbonado + req.monto)
            (f.montoCobrar - (f.totalAbonado + req.monto)) hoy f) := by
        rw [hu, find?_append_of_not _ _ _ hl₁]
        exact List.find?_cons_of_pos _ hpgf
      obtain ⟨st'', hdel, hab2, hfind2⟩ := delete_abono_spec
        { facturas := updateFirst (fun g => g.id == req.facturaId)
            (abonoUpdateRow (f.totalAbonado + req.monto)
              (f.montoCobrar - (f.totalAbonado + req.monto)) hoy)
            st.facturas,
          abonos := st.abonos ++
            [{ id := abonoId, facturaId := req.facturaId,
               consecutivo := f.consecutivo, fecha := req.fecha,
               monto := req.monto, metodoPago := req.metodoPago,
               referencia := req.referencia, notas := req.notas }] }
        abonoId
        ({ id := abonoId, facturaId := req.facturaId,
           consecutivo := f.consecutivo, fecha := req.fecha,
           monto := req.monto, metodoPago := req.metodoPago,
           referencia := req.referencia, notas := req.notas } : Abono)
        (abonoUpdateRow (f.totalAbonado + req.monto)
          (f.montoCobrar - (f.totalAbonado + req.monto)) hoy f)
        hfAb hfF2
      have hGA : (abonoUpdateRow (f.totalAbonado + req.monto)
          (f.montoCobrar - (f.totalAbonado + req.monto)) hoy
            f).totalAbonado = f.totalAbonado + req.monto :=
        abonoUpdateRow_totalAbonado _ _ _ _
      have hGN : (abonoUpdateRow (f.totalAbonado + req.monto)
          (f.montoCobrar - (f.totalAbonado + req.monto)) hoy
            f).montoCobrar = f.montoCobrar :=
        abonoUpdateRow_montoCobrar _ _ _ _
      have hmax : max 0 ((abonoUpdateRow (f.totalAbonado + req.monto)
          (f.montoCobrar - (f.totalAbonado + req.monto)) hoy
            f).totalAbonado - req.monto) = f.totalAbonado := by
        rw [hGA, add_sub_cancel_right]
        exact max_eq_right hA
      have habs : st''.abonos = st.abonos := by
        rw [hab2, removeFirst_append_of_not _ _ _ hnotab,
          removeFirst_cons_of_pos _ _ _ (by simp)]
        simp
      refine ⟨st'', hdel, habs, _, hfind2, ?_, ?_, ?_, ?_⟩
      · rw [deleteUpdateRow_totalAbonado]
        exact hmax
      · rw [deleteUpdateRow_saldoPendiente, hGN, hmax, hsaldo]
      · rw [deleteUpdateRow_estado, hmax]
        rcases hnt with hcase | hcase
        · have hA0 : f.totalAbonado = 0 := hpend.mp hcase
          rw [hA0, if_neg (lt_irrefl 0), hcase]
        · have hne0 : f.totalAbonado ≠ 0 := by
            intro hc
            rw [hpend.mpr hc] at hcase
            exact Estado.noConfusion hcase
          rw [if_pos (lt_of_le_of_ne hA (Ne.symm hne0)), hcase]
      · rw [deleteUpdateRow_pagado, hpg]

theorem C4_reverso_restaura_witness :
    stEj.facturas.find? (fun g => g.id == reqEj30.facturaId) =
      some fEj ∧
    (∃ st', add_abono stEj reqEj30 "A1" "2026-02-01" = .ok st' ∧
      ∃ st'', delete_abono st' "A1" = .ok st'' ∧
        st''.abonos = stEj.abonos ∧
        ∃ f'', st''.facturas.find? (fun g => g.id ==
            reqEj30.facturaId) = some f'' ∧
          f''.totalAbonado = fEj.totalAbonado ∧
          f''.saldoPendiente = fEj.saldoPendiente ∧
          f''.estado = fEj.estado ∧
          f''.pagado = fEj.pagado) := by
  refine ⟨by decide, applyOp stEj (.abonar reqEj30 "A1" "2026-02-01"),
    by rfl, ?_⟩
  exact (C4_reverso_restaura stEj
    (applyOp stEj (.abonar reqEj30 "A1" "2026-02-01")) reqEj30 "A1"
    "2026-02-01" fEj (by decide) (by decide) (by decide) (by decide)
    (by decide) (by decide) (by decide) (by rfl)).1

theorem find?_updateFirst_of_disjoint {α : Type} (p q : α → Bool)
    (g : α → α) (hgp : ∀ x, p (g x) = p x)
    (hdisj : ∀ x, q x = true → p x = false) (l : List α) :
    (updateFirst q g l).find? p = l.find? p := by
  induction l with
  | nil => rfl
  | cons x xs ih =>
    by_cases hq : q x = true
    · rw [updateFirst_cons_of_pos _ _ _ _ hq]
      have hpx : p x = false := hdisj x hq
      have hpgx : p (g x) = false := by rw [hgp x]; exact hpx
      rw [List.find?_cons_of_neg _ (by simp [hpgx]),
        List.find?_cons_of_neg _ (by simp [hpx])]
    · have hq' : q x = false := by simpa using hq
      have hstep : updateFirst q g (x :: xs) =
          x :: updateFirst q g xs := by
        simp [updateFirst, hq']
      rw [hstep]
      by_cases hp : p x = true
      · rw [List.find?_cons_of_pos _ hp, List.find?_cons_of_pos _ hp]
      · rw [List.find?_cons_of_neg _ (by simpa using hp),
          List.find?_cons_of_neg _ (by simpa using hp)]
        exact ih

/-- Claim C6: when both document ids resolve and are distinct,
compensar_documentos succeeds, returns min of the absolute MontoCobrar
values when the requested amount is 0 (or omitted - the handler
defaults a missing montoCompensar to 0), stamps both rows
Compensado/paid with today as settlement date, cross-references each
row to the other's id, appends a note naming the counterpart, and
leaves TotalAbonado, SaldoPendiente and the abono sheet untouched. -/
theorem C6_compensar_documentos (st : SheetState) (ncId facId : String)
    (montoCompensar : Rat) (hoy : String) (nc fac : Factura)
    (hnc : st.facturas.find? (fun g => g.id == ncId) = some nc)
    (hfac : st.facturas.find? (fun g => g.id == facId) = some fac)
    (hne : ncId ≠ facId) :
    ∃ st' amt, compensar_documentos st ncId facId montoCompensar hoy =
        .ok (st', amt) ∧
      (montoCompensar = 0 →
        amt = min |nc.montoCobrar| |fac.montoCobrar|) ∧
      st'.abonos = st.abonos ∧
      (∃ nc', st'.facturas.find? (fun g => g.id == ncId) = some nc' ∧
        nc'.estado = .compensado ∧ nc'.pagado = true ∧
        nc'.fechaPago = some hoy ∧ nc'.documentoRelacionado = facId ∧
        nc'.notas = appendNota nc.notas
          ("Compensado con FAC " ++ facId) ∧
        nc'.totalAbonado = nc.totalAbonado ∧
        nc'.saldoPendiente = nc.saldoPendiente) ∧
      (∃ fac', st'.facturas.find? (fun g => g.id == facId) =
          some fac' ∧
        fac'.estado = .compensado ∧ fac'.pagado = true ∧
        fac'.fechaPago = some hoy ∧ fac'.documentoRelacionado = ncId ∧
        fac'.notas = appendNota fac.notas
          ("Compensado con NC " ++ ncId) ∧
        fac'.totalAbonado = fac.totalAbonado ∧
        fac'.saldoPendiente = fac.saldoPendiente) := by
  have hpnc := List.find?_some hnc
  have hpfac := List.find?_some hfac
  refine ⟨{ facturas := updateFirst (fun g => g.id == facId)
                (compensarRow ncId ("Compensado con NC " ++ ncId) hoy)
                (updateFirst (fun g => g.id == ncId)
                  (compensarRow facId
                    ("Compensado con FAC " ++ facId) hoy) st.facturas),
              abonos := st.abonos },
    (if montoCompensar = 0 then min |nc.montoCobrar| |fac.montoCobrar|
     else montoCompensar), ?_, ?_, rfl, ?_, ?_⟩
  · unfold compensar_documentos
    rw [hnc]
    simp only
    rw [hfac]
  · intro h0
    rw [if_pos h0]
  · obtain ⟨l₁, l₂, hl, hl₁, hu⟩ := updateFirst_decomp _ _ _ hnc
    have hdisj2 : ∀ x : Factura, (x.id == facId) = true →
        (x.id == ncId) = false := by
      intro x hx
      rw [beq_iff_eq] at hx
      rw [beq_eq_false_iff_ne, hx]
      exact fun he => hne he.symm
    refine ⟨compensarRow facId ("Compensado con FAC " ++ facId) hoy nc,
      ?_, rfl, rfl, rfl, rfl, rfl, rfl, rfl⟩
    show (updateFirst (fun g => g.id == facId)
        (compensarRow ncId ("Compensado con NC " ++ ncId) hoy)
        (updateFirst (fun g => g.id == ncId)
          (compensarRow facId ("Compensado con FAC " ++ facId) hoy)
          st.facturas)).find? (fun g => g.id == ncId) = _
    rw [find?_updateFirst_of_disjoint (fun x => x.id == ncId)
      (fun x => x.id == facId)
      (compensarRow ncId ("Compensado con NC " ++ ncId) hoy)
      (fun x => rfl) hdisj2]
    rw [hu, find?_append_of_not _ _ _ hl₁]
    exact List.find?_cons_of_pos _ hpnc
  · have hdisj1 : ∀ x : Factura, (x.id == ncId) = true →
        (x.id == facId) = false := by
      intro x hx
      rw [beq_iff_eq] at hx
      rw [beq_eq_false_iff_ne, hx]
      exact fun he => hne he
    have hfind_fac1 : (updateFirst (fun g => g.id == ncId)
        (compensarRow facId ("Compensado con FAC " ++ facId) hoy)
        st.facturas).find? (fun g => g.id == facId) = some fac := by
      rw [find?_updateFirst_of_disjoint (fun x => x.id == facId)
        (fun x => x.id == ncId)
        (compensarRow facId ("Compensado con FAC " ++ facId) hoy)
        (fun x => rfl) hdisj1]
      exact hfac
    obtain ⟨m₁, m₂, hm, hm₁, hum⟩ := updateFirst_decomp _ _ _ hfind_fac1
    refine ⟨compensarRow ncId ("Compensado con NC " ++ ncId) hoy fac,
      ?_, rfl, rfl, rfl, rfl, rfl, rfl, rfl⟩
    show (updateFirst (fun g => g.id == facId)
        (compensarRow ncId ("Compensado con NC " ++ ncId) hoy)
        (updateFirst (fun g => g.id == ncId)
          (compensarRow facId ("Compensado con FAC " ++ facId) hoy)
          st.facturas)).find? (fun g => g.id == facId) = _
    rw [hum, find?_append_of_not _ _ _ hm₁]
    exact List.find?_cons_of_pos _ hpfac

theorem C6_compensar_documentos_witness :
    stEjComp.facturas.find? (fun g => g.id == "NC1") = some fEjNC ∧
    stEjComp.facturas.find? (fun g => g.id == "F2") = some fEj150 ∧
    ("NC1" : String) ≠ "F2" ∧
    (∃ st' amt,
      compensar_documentos stEjComp "NC1" "F2" 0 "2026-03-01" =
        .ok (st', amt) ∧
      ((0:Rat) = 0 →
        amt = min |fEjNC.montoCobrar| |fEj150.montoCobrar|) ∧
      st'.abonos = stEjComp.abonos ∧
      (∃ nc', st'.facturas.find? (fun g => g.id == "NC1") = some nc' ∧
        nc'.estado = .compensado ∧ nc'.pagado = true ∧
        nc'.fechaPago = some "2026-03-01" ∧
        nc'.documentoRelacionado = "F2" ∧
        nc'.notas = appendNota fEjNC.notas "Compensado con FAC F2" ∧
        nc'.totalAbonado = fEjNC.totalAbonado ∧
        nc'.saldoPendiente = fEjNC.saldoPendiente) ∧
      (∃ fac', st'.facturas.find? (fun g => g.id == "F2") =
          some fac' ∧
        fac'.estado = .compensado ∧ fac'.pagado = true ∧
        fac'.fechaPago = some "2026-03-01" ∧
        fac'.documentoRelacionado = "NC1" ∧
        fac'.notas = appendNota fEj150.notas "Compensado con NC NC1" ∧
        fac'.totalAbonado = fEj150.totalAbonado ∧
        fac'.saldoPendiente = fEj150.saldoPendiente)) :=
  ⟨by decide, by decide, by decide,
   C6_compensar_documentos stEjComp "NC1" "F2" 0 "2026-03-01" fEjNC
     fEj150 (by decide) (by decide) (by decide)⟩

theorem compensarRow_montoCobrar (relId nota hoy : String)
    (g : Factura) : (compensarRow relId nota hoy g).montoCobrar =
      g.montoCobrar := rfl

theorem deleteUpdateRow_montoCobrar (a s : Rat) (g : Factura) :
    (deleteUpdateRow a s g).montoCobrar = g.montoCobrar := rfl

theorem pagoUpdateRow_id (mp : Option Rat) (fp n : String)
    (g : Factura) : (pagoUpdateRow mp fp n g).id = g.id := by
  unfold pagoUpdateRow
  cases mp <;> dsimp only <;> (try split) <;> (try split) <;> rfl

theorem pagoUpdateRow_montoCobrar_parcial (v : Rat) (fp n : String)
    (g : Factura) (hv : v ≠ 0) :
    (pagoUpdateRow (some v) fp n g).montoCobrar =
      g.montoCobrar - v := by
  unfold pagoUpdateRow
  dsimp only
  rw [if_pos hv]
  split <;> rfl

theorem map_montoCobrar_updateFirst (p : Factura → Bool)
    (g : Factura → Factura) (l : List Factura)
    (hg : ∀ x, (g x).montoCobrar = x.montoCobrar) :
    (updateFirst p g l).map (fun x => x.montoCobrar) =
      l.map (fun x => x.montoCobrar) := by
  induction l with
  | nil => rfl
  | cons x xs ih =>
    by_cases hp : p x = true
    · simp [updateFirst, hp, hg x]
    · have hp' : p x = false := by simpa using hp
      simp [updateFirst, hp', ih]

/-- Claim C7, counterexample: the claim says no payment-registration
operation modifies MontoCobrar, but registrar_pago with
montoParcial = 30 rewrites the sample invoice's MontoCobrar cell from
100 to 70 (src/backend.py lines 1271-1273). -/
theorem C7_counterexample :
    (registrar_pago stEj "F1" (some 30) "2026-02-01"
      "").facturas.map (fun g => g.montoCobrar) = [70] ∧
    stEj.facturas.map (fun g => g.montoCobrar) = [100] := by
  constructor <;> decide

/-- Claim C7, amended: MontoCobrar is computed exactly once at
creation as gross total minus CORFOGA minus other deductions, and
neither add_abono, delete_abono nor compensar_documentos ever modifies
any invoice's MontoCobrar; the legacy registrar_pago endpoint,
however, when given a nonzero montoParcial, decreases the target
invoice's MontoCobrar by that amount. -/
theorem C7_monto_cobrar (st₁ : SheetState) :
    (∀ (facturaId consecutivo fecha clienteId clienteNombre
        cedulaCliente : String) (total corfoga otros : Rat)
        (fv : Option Int) (tipoProducto ordenCompra notas
        tipoDocumento documentoRelacionado : String),
      (add_factura facturaId consecutivo fecha clienteId clienteNombre
        cedulaCliente total corfoga otros fv tipoProducto ordenCompra
        notas tipoDocumento documentoRelacionado).montoCobrar =
        total - corfoga - otros) ∧
    (∀ st req abonoId hoy st', add_abono st req abonoId hoy = .ok st' →
      st'.facturas.map (fun g => g.montoCobrar) =
        st.facturas.map (fun g => g.montoCobrar)) ∧
    (∀ st abonoId st', delete_abono st abonoId = .ok st' →
      st'.facturas.map (fun g => g.montoCobrar) =
        st.facturas.map (fun g => g.montoCobrar)) ∧
    (∀ st ncId facId monto hoy st' amt,
      compensar_documentos st ncId facId monto hoy = .ok (st', amt) →
      st'.facturas.map (fun g => g.montoCobrar) =
        st.facturas.map (fun g => g.montoCobrar)) ∧
    (∀ facturaId (v : Rat) (fechaPago notas : String) f,
      st₁.facturas.find? (fun g => g.id == facturaId) = some f →
      v ≠ 0 →
      ∃ f', (registrar_pago st₁ facturaId (some v) fechaPago
          notas).facturas.find? (fun g => g.id == facturaId) =
            some f' ∧
        f'.montoCobrar = f.montoCobrar - v) := by
  refine ⟨fun _ _ _ _ _ _ _ _ _ _ _ _ _ _ _ => rfl, ?_, ?_, ?_, ?_⟩
  · intro st req abonoId hoy st' hok
    unfold add_abono at hok
    by_cases h1 : req.facturaId = "" ∨ req.monto ≤ 0
    · rw [if_pos h1] at hok
      cases hok
    · rw [if_neg h1] at hok
      cases hfind : st.facturas.find? (fun f => f.id == req.facturaId)
        with
      | none => rw [hfind] at hok; cases hok
      | some f =>
        rw [hfind] at hok
        simp only at hok
        by_cases h2 : f.montoCobrar - (f.totalAbonado + req.monto) <
            -tolerancia
        · rw [if_pos h2] at hok
          cases hok
        · rw [if_neg h2] at hok
          cases hok
          exact map_montoCobrar_updateFirst _ _ _
            (fun x => abonoUpdateRow_montoCobrar _ _ _ x)
  · intro st abonoId st' hok
    unfold delete_abono at hok
    cases hab : st.abonos.find? (fun a => a.id == abonoId) with
    | none => rw [hab] at hok; cases hok
    | some ab =>
      rw [hab] at hok
      simp only at hok
      cases hok
      cases hfa : st.facturas.find? (fun f => f.id == ab.facturaId)
        with
      | none => rfl
      | some f =>
        exact map_montoCobrar_updateFirst _ _ _
          (fun x => deleteUpdateRow_montoCobrar _ _ x)
  · intro st ncId facId monto hoy st' amt hok
    unfold compensar_documentos at hok
    cases hnc : st.facturas.find? (fun f => f.id == ncId) with
    | none => rw [hnc] at hok; cases hok
    | some nc =>
      rw [hnc] at hok
      simp only at hok
      cases hfac : st.facturas.find? (fun f => f.id == facId) with
      | none => rw [hfac] at hok; cases hok
      | some fac =>
        rw [hfac] at hok
        simp only [Except.ok.injEq, Prod.mk.injEq] at hok
        obtain ⟨h1, -⟩ := hok
        rw [← h1]
        rw [map_montoCobrar_updateFirst _ _ _
          (fun x => compensarRow_montoCobrar _ _ _ x)]
        exact map_montoCobrar_updateFirst _ _ _
          (fun x => compensarRow_montoCobrar _ _ _ x)
  · intro facturaId v fechaPago notas f hf hv
    unfold registrar_pago
    rw [hf]
    simp only
    obtain ⟨l₁, l₂, hl, hl₁, hu⟩ := updateFirst_decomp _ _ _ hf
    have hpf := List.find?_some hf
    have hpgf : ((pagoUpdateRow (some v) fechaPago notas f).id ==
        facturaId) = true := by
      rw [pagoUpdateRow_id]
      exact hpf
    refine ⟨pagoUpdateRow (some v) fechaPago notas f, ?_, ?_⟩
    · show (updateFirst (fun g => g.id == facturaId)
        (pagoUpdateRow (some v) fechaPago notas)
        st₁.facturas).find? (fun g => g.id == facturaId) = _
      rw [hu, find?_append_of_not _ _ _ hl₁]
      exact List.find?_cons_of_pos _ hpgf
    · exact pagoUpdateRow_montoCobrar_parcial v fechaPago notas f hv

theorem C7_monto_cobrar_witness :
    (add_factura "F9" "10000105" "2026-01-01" "C1" "ACME" "101"
      100 5 3 none "" "" "" "" "").montoCobrar = 100 - 5 - 3 ∧
    stEj.facturas.find? (fun g => g.id == "F1") = some fEj ∧
    ((30:Rat) ≠ 0) ∧
    (∃ f', (registrar_pago stEj "F1" (some 30) "2026-02-01"
        "").facturas.find? (fun g => g.id == "F1") = some f' ∧
      f'.montoCobrar = fEj.montoCobrar - 30) := by
  have h := C7_monto_cobrar stEj
  exact ⟨h.1 "F9" "10000105" "2026-01-01" "C1" "ACME" "101" 100 5 3
      none "" "" "" "" "",
    by decide, by decide,
    h.2.2.2.2 "F1" 30 "2026-02-01" "" fEj (by decide) (by decide)⟩

/-- Claim C8: for an open invoice (not paid, not compensated, not a
credit note, positive balance) with a parsable due date, the
AgingClassifier puts an invoice due exactly 30 days before the
reference date in the 0-30 bucket, one due 31 days before in 31-60,
and one not yet due (negative days past due, clamped to 0 only for
display) in 0-30; the upper bounds 30, 60 and 90 are inclusive and
everything beyond 90 days lands in the 90+ bucket. -/
theorem C8_antiguedad_buckets (hoy : Int) (f : Factura) (fv : Int)
    (hfv : f.fechaVencimiento = some fv)
    (hinc : incluidaEnCartera f = true) :
    (hoy - fv = 30 → clasificarFactura hoy f = some .corriente) ∧
    (hoy - fv = 31 → clasificarFactura hoy f = some .dias31_60) ∧
    (hoy - fv < 0 → clasificarFactura hoy f = some .corriente) ∧
    (hoy - fv = 60 → clasificarFactura hoy f = some .dias31_60) ∧
    (hoy - fv = 61 → clasificarFactura hoy f = some .dias61_90) ∧
    (hoy - fv = 90 → clasificarFactura hoy f = some .dias61_90) ∧
    (90 < hoy - fv → clasificarFactura hoy f = some .dias90mas) := by
  have hd : dias_vencido hoy f.fechaVencimiento = hoy - fv := by
    simp [dias_vencido, hfv]
  have hcf : clasificarFactura hoy f =
      some (clasificarBucket (hoy - fv)) := by
    unfold clasificarFactura
    rw [if_pos hinc, hd]
  refine ⟨?_, ?_, ?_, ?_, ?_, ?_, ?_⟩ <;> intro h <;> rw [hcf] <;>
    unfold clasificarBucket
  · rw [if_pos (by omega)]
  · rw [if_neg (by omega), if_pos (by omega)]
  · rw [if_pos (by omega)]
  · rw [if_neg (by omega), if_pos (by omega)]
  · rw [if_neg (by omega), if_neg (by omega), if_pos (by omega)]
  · rw [if_neg (by omega), if_neg (by omega), if_pos (by omega)]
  · rw [if_neg (by omega), if_neg (by omega), if_neg (by omega)]

theorem C8_antiguedad_buckets_witness :
    fEj.fechaVencimiento = some 20500 ∧
    incluidaEnCartera fEj = true ∧
    ((20530 : Int) - 20500 = 30 →
      clasificarFactura 20530 fEj = some .corriente) ∧
    clasificarFactura 20531 fEj = some .dias31_60 ∧
    clasificarFactura 20400 fEj = some .corriente ∧
    clasificarFactura 20590 fEj = some .dias61_90 ∧
    clasificarFactura 20700 fEj = some .dias90mas :=
  ⟨by decide, by decide,
   (C8_antiguedad_buckets 20530 fEj 20500 (by decide) (by decide)).1,
   by decide, by decide, by decide, by decide⟩

/-- Claim C10, counterexample: the claim says identifications whose
digits-only form is shorter than 4 digits fail closed, but the Python
slice id_limpia[-4:] returns the whole short string, so identification
"12" with supplied code "12" verifies successfully. -/
theorem C10_counterexample :
    verificar_ultimos_digitos ['1', '2'] ['1', '2'] = true ∧
    (['1', '2'].filter (fun c => c.isDigit)).length < 4 := by
  constructor <;> decide

/-- Claim C10, amended: verificar_ultimos_digitos accepts exactly the
codes equal to the suffix of length min(4, number of digits) of the
digits-only identification: with at least 4 digits this is the last-4
comparison and any other code is rejected, but an identification with
fewer than 4 digits (including the empty one) accepts a code equal to
its entire digit string - the function does not fail closed on such
malformed input. -/
theorem C10_verificar_ultimos_digitos (identificacion codigo :
    List Char) :
    verificar_ultimos_digitos identificacion codigo = true ↔
      ((4 ≤ (identificacion.filter (fun c => c.isDigit)).length ∧
        ∃ p, identificacion.filter (fun c => c.isDigit) =
          p ++ codigo ∧ codigo.length = 4) ∨
       ((identificacion.filter (fun c => c.isDigit)).length < 4 ∧
        codigo = identificacion.filter (fun c => c.isDigit))) := by
  unfold verificar_ultimos_digitos
  rw [beq_iff_eq]
  by_cases hlen : 4 ≤ (identificacion.filter
      (fun c => c.isDigit)).length
  · constructor
    · intro h
      left
      refine ⟨hlen, (identificacion.filter
        (fun c => c.isDigit)).take ((identificacion.filter
          (fun c => c.isDigit)).length - 4), ?_, ?_⟩
      · rw [← h]
        exact (List.take_append_drop _ _).symm
      · rw [← h, List.length_drop]
        omega
    · rintro (⟨-, p, hp, hc4⟩ | ⟨hlt, -⟩)
      · rw [hp]
        have hplen : (p ++ codigo).length - 4 = p.length := by
          rw [List.length_append]
          omega
        rw [hplen]
        exact List.drop_left p codigo
      · omega
  · have hz : (identificacion.filter
        (fun c => c.isDigit)).length - 4 = 0 := by omega
    rw [hz, List.drop_zero]
    constructor
    · intro h
      exact Or.inr ⟨by omega, h.symm⟩
    · rintro (⟨h4, -⟩ | ⟨-, hc⟩)
      · exact absurd h4 hlen
      · exact hc.symm

theorem isDigit_ne_dot (c : Char) (h : c.isDigit = true) : c ≠ '.' := by
  intro hc
  rw [hc] at h
  exact absurd h (by decide)

theorem isDigit_ne_comma (c : Char) (h : c.isDigit = true) :
    c ≠ ',' := by
  intro hc
  rw [hc] at h
  exact absurd h (by decide)

theorem isDigit_ne_minus (c : Char) (h : c.isDigit = true) :
    c ≠ '-' := by
  intro hc
  rw [hc] at h
  exact absurd h (by decide)

theorem digitsVal_from (a : Nat) (l : List Char) :
    l.foldl (fun a c => 10 * a + (c.toNat - 48)) a =
      a * 10 ^ l.length + digitsVal l := by
  induction l generalizing a with
  | nil => simp [digitsVal]
  | cons c l ih =>
    rw [List.foldl_cons]
    rw [ih (10 * a + (c.toNat - 48))]
    have h2 : digitsVal (c :: l) =
        (c.toNat - 48) * 10 ^ l.length + digitsVal l := by
      show List.foldl _ ((fun a c => 10 * a + (c.toNat - 48)) 0 c) l = _
      rw [ih (10 * 0 + (c.toNat - 48))]
      ring_nf
    rw [h2, List.length_cons]
    ring

theorem digitsVal_append (l₁ l₂ : List Char) :
    digitsVal (l₁ ++ l₂) =
      digitsVal l₁ * 10 ^ l₂.length + digitsVal l₂ := by
  show List.foldl _ 0 (l₁ ++ l₂) = _
  rw [List.foldl_append]
  exact digitsVal_from _ l₂

theorem digitsVal_replicate_zero (z : Nat) :
    digitsVal (List.replicate z '0') = 0 := by
  induction z with
  | zero => rfl
  | succ z ih =>
    rw [List.replicate_succ]
    show List.foldl _ ((fun a c => 10 * a + (c.toNat - 48)) 0 '0') _ = 0
    have h0 : (fun a c => 10 * a + (c.toNat - 48)) 0 '0' = 0 := by decide
    rw [h0]
    exact ih

theorem digitChar_isDigit : ∀ r < 10, (Nat.digitChar r).isDigit = true := by
  decide

theorem digitChar_toNat : ∀ r < 10, (Nat.digitChar r).toNat - 48 = r := by
  decide

theorem natDigitsAux_spec (fuel : Nat) : ∀ n ≤ fuel,
    digitsVal (natDigitsAux fuel n) = n ∧
    ∀ c ∈ natDigitsAux fuel n, c.isDigit = true := by
  induction fuel with
  | zero =>
    intro n hn
    have h0 : n = 0 := Nat.le_zero.mp hn
    subst h0
    exact ⟨rfl, by simp [natDigitsAux]⟩
  | succ fuel ih =>
    intro n hn
    by_cases h0 : n = 0
    · subst h0
      constructor
      · simp [natDigitsAux, digitsVal]
      · simp [natDigitsAux]
    · have hdiv : n / 10 ≤ fuel := by
        have := Nat.div_lt_self (Nat.pos_of_ne_zero h0)
          (by norm_num : 1 < 10)
        omega
      obtain ⟨ihv, ihd⟩ := ih (n / 10) hdiv
      have hm : n % 10 < 10 := Nat.mod_lt _ (by norm_num)
      constructor
      · show digitsVal (natDigitsAux (fuel + 1) n) = n
        rw [natDigitsAux, if_neg h0, digitsVal_append, ihv]
        have hone : digitsVal [Nat.digitChar (n % 10)] =
            (Nat.digitChar (n % 10)).toNat - 48 := by
          show 10 * 0 + _ = _
          omega
        rw [hone, digitChar_toNat _ hm]
        simp only [List.length_singleton, pow_one]
        omega
      · intro c hc
        rw [natDigitsAux, if_neg h0] at hc
        rcases List.mem_append.mp hc with hc | hc
        · exact ihd c hc
        · rw [List.mem_singleton] at hc
          subst hc
          exact digitChar_isDigit _ hm

theorem natDigits_spec (n : Nat) :
    digitsVal (natDigits n) = n ∧
    ∀ c ∈ natDigits n, c.isDigit = true :=
  natDigitsAux_spec n n le_rfl

theorem takeWhile_append_cons {α : Type} (p : α → Bool) (l₁ : List α)
    (x : α) (l₂ : List α) (h₁ : ∀ c ∈ l₁, p c = true)
    (hx : p x = false) : (l₁ ++ x :: l₂).takeWhile p = l₁ := by
  induction l₁ with
  | nil => simp [List.takeWhile_cons, hx]
  | cons c cs ih =>
    have hc := h₁ c (List.mem_cons_self c cs)
    simp only [List.cons_append, List.takeWhile_cons, hc, if_pos]
    rw [ih (fun y hy => h₁ y (List.mem_cons_of_mem c hy))]

theorem pyFloatBody_render (ip fp' : List Char)
    (hip : ∀ c ∈ ip, c.isDigit = true)
    (hfp : ∀ c ∈ fp', c.isDigit = true) (hipne : ip ≠ []) :
    pyFloatBody (ip ++ '.' :: fp') =
      some (mkRat (digitsVal (ip ++ fp')) (10 ^ fp'.length)) := by
  have htw : (ip ++ '.' :: fp').takeWhile (fun c => c ≠ '.') = ip := by
    apply takeWhile_append_cons
    · intro c hc
      simp [isDigit_ne_dot c (hip c hc)]
    · simp
  unfold pyFloatBody
  simp only [htw, List.drop_left]
  have hcond : (ip.all (fun c => c.isDigit) = true) ∧
      (fp'.all (fun c => c.isDigit) = true) ∧ ip ++ fp' ≠ [] := by
    refine ⟨List.all_eq_true.mpr hip, List.all_eq_true.mpr hfp, ?_⟩
    simp [hipne]
  rw [if_pos hcond]

theorem mul_pow_ten_int (p : Rat) (k : Nat) (hp : 0 ≤ p)
    (hdvd : p.den ∣ 10 ^ k) :
    (((p * ((10 : Rat) ^ k)).num.toNat : Nat) : Rat) =
      p * ((10 : Rat) ^ k) := by
  obtain ⟨c, hc⟩ := hdvd
  have hden : ((p.den : Rat)) ≠ 0 := by
    exact_mod_cast p.den_nz
  have hmden : p * (p.den : Rat) = (p.num : Rat) :=
    ((div_eq_iff hden).mp (Rat.num_div_den p)).symm
  have h1 : p * ((10 : Rat) ^ k) = ((p.num * (c : Int) : Int) : Rat) := by
    have h10 : ((10 : Rat) ^ k) = (p.den : Rat) * (c : Rat) := by
      have h2 := congrArg (fun n : Nat => (n : Rat)) hc
      push_cast at h2
      exact h2
    rw [h10, ← mul_assoc, hmden]
    push_cast
    ring
  have hnum : (p * ((10 : Rat) ^ k)).num = p.num * (c : Int) := by
    rw [h1, Rat.intCast_num]
  have hnn : 0 ≤ p.num * (c : Int) :=
    mul_nonneg (Rat.num_nonneg.mpr hp) (Int.natCast_nonneg c)
  rw [hnum, h1]
  exact_mod_cast congrArg (fun z : Int => (z : Rat))
    (Int.toNat_of_nonneg hnn)

theorem abs_den (q : Rat) : |q|.den = q.den := by
  rcases le_or_lt 0 q with h | h
  · rw [abs_of_nonneg h]
  · rw [abs_of_neg h]
    exact Rat.neg_den q

theorem pyDigits_dig (m : Nat) : ∀ c ∈ pyDigits m, c.isDigit = true := by
  unfold pyDigits
  split
  · intro c hc
    rw [List.mem_singleton] at hc
    subst hc
    decide
  · exact (natDigits_spec m).2

theorem pyDigits_val (m : Nat) : digitsVal (pyDigits m) = m := by
  unfold pyDigits
  split
  · rename_i h0
    rw [h0]
    rfl
  · exact (natDigits_spec m).1

theorem pyPadded_dig (k m : Nat) :
    ∀ c ∈ pyPadded k m, c.isDigit = true := by
  unfold pyPadded
  intro c hc
  rcases List.mem_append.mp hc with hc | hc
  · rw [List.eq_of_mem_replicate hc]
    decide
  · exact pyDigits_dig m c hc

theorem pyPadded_val (k m : Nat) : digitsVal (pyPadded k m) = m := by
  unfold pyPadded
  rw [digitsVal_append, digitsVal_replicate_zero, pyDigits_val]
  ring

theorem pyPadded_len (k m : Nat) : k + 1 ≤ (pyPadded k m).length := by
  unfold pyPadded
  rw [List.length_append, List.length_replicate]
  omega

theorem pyStrPos_spec (q : Rat) (h : q.den ∣ 10 ^ decExp q.den) :
    ∃ ip fp', pyStrPos q =
        (if q < 0 then ['-'] else []) ++ ip ++ '.' :: fp' ∧
      (∀ c ∈ ip, c.isDigit = true) ∧
      (∀ c ∈ fp', c.isDigit = true) ∧ ip ≠ [] ∧
      mkRat (digitsVal (ip ++ fp')) (10 ^ fp'.length) = |q| := by
  have hint : ((pyMant q : Nat) : Rat) = |q| * ((10 : Rat) ^ decExp q.den) :=
    mul_pow_ten_int |q| (decExp q.den) (abs_nonneg q)
      (by rw [abs_den]; exact h)
  have hL := pyPadded_len (decExp q.den) (pyMant q)
  have hipne : (pyPadded (decExp q.den) (pyMant q)).take
      ((pyPadded (decExp q.den) (pyMant q)).length - decExp q.den) ≠
        [] := by
    apply List.ne_nil_of_length_pos
    rw [List.length_take]
    omega
  refine ⟨(pyPadded (decExp q.den) (pyMant q)).take
      ((pyPadded (decExp q.den) (pyMant q)).length - decExp q.den),
    (if decExp q.den = 0 then ['0']
     else (pyPadded (decExp q.den) (pyMant q)).drop
       ((pyPadded (decExp q.den) (pyMant q)).length - decExp q.den)),
    by unfold pyStrPos
       rfl, ?_, ?_, hipne, ?_⟩
  · intro c hc
    exact pyPadded_dig _ _ c (List.take_subset _ _ hc)
  · split
    · intro c hc
      rw [List.mem_singleton] at hc
      subst hc
      decide
    · intro c hc
      exact pyPadded_dig _ _ c (List.drop_subset _ _ hc)
  · by_cases hk0 : decExp q.den = 0
    · rw [if_pos hk0]
      rw [hk0] at hint ⊢
      rw [Nat.sub_zero, List.take_length]
      rw [digitsVal_append, pyPadded_val]
      rw [pow_zero, mul_one] at hint
      have h0 : digitsVal ['0'] = 0 := rfl
      rw [h0, List.length_singleton, Rat.mkRat_eq_div]
      push_cast
      rw [hint]
      field_simp
    · rw [if_neg hk0]
      rw [List.take_append_drop]
      rw [pyPadded_val]
      have hfl : ((pyPadded (decExp q.den) (pyMant q)).drop
          ((pyPadded (decExp q.den) (pyMant q)).length -
            decExp q.den)).length = decExp q.den := by
        rw [List.length_drop]
        omega
      rw [hfl, Rat.mkRat_eq_div]
      push_cast
      rw [hint]
      have hne : ((10:Rat) ^ decExp q.den) ≠ 0 := by
        apply pow_ne_zero
        norm_num
      field_simp

theorem parse_pyStrPos (q : Rat) (h : q.den ∣ 10 ^ decExp q.den) :
    parse_number (.str (pyStrPos q)) = q := by
  obtain ⟨ip, fp', hstr, hip, hfp, hipne, hval⟩ := pyStrPos_spec q h
  have hkeep : ∀ c ∈ pyStrPos q, keepChar c = true := by
    rw [hstr]
    intro c hc
    rcases List.mem_append.mp hc with hc | hc
    · rcases List.mem_append.mp hc with hc | hc
      · by_cases hq : q < 0
        · rw [if_pos hq] at hc
          rw [List.mem_singleton] at hc
          subst hc
          decide
        · rw [if_neg hq] at hc
          simp at hc
      · simp [keepChar, hip c hc]
    · rcases List.mem_cons.mp hc with rfl | hc
      · decide
      · simp [keepChar, hfp c hc]
  have hnocomma : ',' ∉ pyStrPos q := by
    rw [hstr]
    intro hc
    rcases List.mem_append.mp hc with hc | hc
    · rcases List.mem_append.mp hc with hc | hc
      · by_cases hq : q < 0
        · rw [if_pos hq] at hc
          rw [List.mem_singleton] at hc
          exact absurd hc (by decide)
        · rw [if_neg hq] at hc
          simp at hc
      · exact absurd (hip ',' hc) (by decide)
    · rcases List.mem_cons.mp hc with hc | hc
      · exact absurd hc (by decide)
      · exact absurd (hfp ',' hc) (by decide)
  have hdot : '.' ∈ pyStrPos q := by
    rw [hstr]
    simp
  cases hps : pyStrPos q with
  | nil =>
    rw [hps] at hdot
    simp at hdot
  | cons c₀ cs =>
    rw [hps] at hstr hkeep hnocomma hdot
    show parse_number (.str (c₀ :: cs)) = q
    unfold parse_number
    simp only
    have hfilt : (c₀ :: cs).filter keepChar = c₀ :: cs :=
      List.filter_eq_self.mpr hkeep
    rw [hfilt]
    have hne2 : ¬(c₀ :: cs = [] ∨ c₀ :: cs = ['-']) := by
      rintro (hc | hc)
      · cases hc
      · rw [hc] at hdot
        rw [List.mem_singleton] at hdot
        exact absurd hdot (by decide)
    rw [if_neg hne2]
    have hnc : ¬((',' ∈ c₀ :: cs) ∧ ('.' ∈ c₀ :: cs)) :=
      fun hcc => hnocomma hcc.1
    rw [if_neg hnc, if_neg hnocomma]
    by_cases hq : q < 0
    · rw [if_pos hq, List.singleton_append, List.cons_append] at hstr
      injection hstr with h1 h2
      subst h1
      subst h2
      unfold pyFloat
      simp only
      simp only [if_true]
      rw [pyFloatBody_render ip fp' hip hfp hipne]
      simp only [Option.map_some', Option.getD_some]
      rw [hval, abs_of_neg hq, neg_neg]
    · rw [if_neg hq, List.nil_append] at hstr
      obtain ⟨d, ip', rfl⟩ : ∃ d ip', ip = d :: ip' := by
        cases ip with
        | nil => exact absurd rfl hipne
        | cons d ip' => exact ⟨d, ip', rfl⟩
      rw [List.cons_append] at hstr
      injection hstr with h1 h2
      subst h1
      subst h2
      unfold pyFloat
      simp only
      have hdm : ¬(c₀ = '-') :=
        isDigit_ne_minus c₀ (hip c₀ (List.mem_cons_self c₀ ip'))
      rw [if_neg hdm]
      rw [show c₀ :: (ip' ++ '.' :: fp') = (c₀ :: ip') ++ '.' :: fp'
        from rfl]
      rw [pyFloatBody_render (c₀ :: ip') fp' hip hfp hipne]
      simp only [Option.getD_some]
      rw [hval]
      exact abs_of_nonneg (not_lt.mp hq)

set_option maxRecDepth 4000 in
/-- Claim C9, counterexample: the claim asserts idempotence for every
input, but at "0,00001" the parsed value is 10^-5, Python str()
renders it in scientific notation as "1e-05", and re-parsing that
string strips the 'e' (leaving "1-05", which float() rejects),
yielding 0 instead of 10^-5. -/
theorem C9_counterexample :
    parse_number (.str "0,00001".toList) = mkRat 1 100000 ∧
    pyStr (parse_number (.str "0,00001".toList)) = "1e-05".toList ∧
    parse_number (.str (pyStr (parse_number
      (.str "0,00001".toList)))) = 0 ∧
    parse_number (.str (pyStr (parse_number
      (.str "0,00001".toList)))) ≠
      parse_number (.str "0,00001".toList) := by
  refine ⟨by decide, by decide, by decide, by decide⟩

/-- Claim C9, amended: parse_number is idempotent - re-parsing the
str() rendering of a parsed result yields the same number - for every
input whose parsed value falls in Python's positional-notation range
(0, or magnitude in [10^-4, 10^16)); outside it str() uses scientific
notation, which parse_number mangles.  pyStr models Python str() on
the exact rational value of the float result; the first hypothesis
states that this value has a finite decimal expansion, true of every
Python float. -/
theorem C9_parse_number_idempotente (x : PyVal)
    (h : (parse_number x).den ∣ 10 ^ decExp (parse_number x).den)
    (hrange : parse_number x = 0 ∨
      (minPosicional ≤ |parse_number x| ∧
        |parse_number x| < maxPosicional)) :
    parse_number (.str (pyStr (parse_number x))) = parse_number x := by
  unfold pyStr
  rw [if_pos hrange]
  exact parse_pyStrPos (parse_number x) h

set_option maxRecDepth 4000 in
theorem C9_parse_number_idempotente_witness :
    ((parse_number (.str "1.234,56".toList)).den ∣
      10 ^ decExp (parse_number (.str "1.234,56".toList)).den) ∧
    (parse_number (.str "1.234,56".toList) = 0 ∨
      (minPosicional ≤ |parse_number (.str "1.234,56".toList)| ∧
        |parse_number (.str "1.234,56".toList)| < maxPosicional)) ∧
    parse_number (.str (pyStr (parse_number
      (.str "1.234,56".toList)))) =
      parse_number (.str "1.234,56".toList) :=
  ⟨by decide, by decide,
   C9_parse_number_idempotente (.str "1.234,56".toList) (by decide)
     (by decide)⟩

end CxC
